import Mathlib

/-!
Verification of `stride.js`: the access-token cache, the inbound JWT gate and the API
functions.

A shallow embedding of `factory` in `src/stride.js`.

* `getAccessToken` (lines 43-83) is an `async` function without `await`: its body runs to
  completion synchronously when it is called.  The two module-level variables `token` and
  `accessTokenPromise` become fields of `State`.  A promise created by
  `r2(request_options).then(...)` is a `Fetch` in the store `State.fetches`; the index of a
  fetch is the identity of its promise.  The callback of the HTTP client together with the
  `.then` continuation is one event, `completeFetch`.
* `Date.now()` is an argument of each event.  JavaScript numbers are doubles; the model uses
  `Int`, which agrees with them for integral values below `2^53`.
* `getJWT` / `validateJWT` (lines 617-681) are modelled over a JSON value type, with the
  `jwt-simple` library taken as a parameter.
* `r2` (lines 16-38) is its callback, run against an HTTP client that answers a request with
  the arguments `(err, response, body)`; `prettify_json`, which wraps the library
  `prettyjson`, is a parameter that may throw.
* An API function (lines 94-442, 543-602) is its checks followed by the request it builds
  from the access token it awaited; parameters that the source uses as strings are strings.
* `createDocMentioningUser` (lines 463-510) is modelled with `String.prototype.split` for a
  non-empty separator.
* `sendTextMessage`, `reply`, `replyWithText` and `convertTextToDoc` (lines 448-457, 512-536,
  565-584) are their checks followed by the API call they return.
-/

namespace Stride

/-! ## Values -/

/-- A parsed JSON value.  Objects are association lists (the first binding of a key counts). -/
inductive Json where
  | null : Json
  | bool (b : Bool) : Json
  | num (n : Int) : Json
  | str (s : String) : Json
  | arr (xs : List Json) : Json
  | obj (fields : List (String × Json)) : Json

/-- The arguments of `factory` that the modelled functions read. -/
structure Config where
  clientId : String
  clientSecret : String
  env : String := "development"

/-- Line 13: `env === "production" ? 'https://api.atlassian.com' : 'https://api.stg.atlassian.com'`. -/
def API_BASE_URL (cfg : Config) : String :=
  if cfg.env = "production" then "https://api.atlassian.com" else "https://api.stg.atlassian.com"

/-- The `options` object handed to `r2` (and by `r2` to the HTTP client). -/
structure RequestOptions where
  uri : String
  method : String
  headers : List (String × String) := []
  json : Option Json := none
  /-- The `body` option; only `sendMedia` sets it (to the stream it is given, named here). -/
  body : Option String := none

/-! ## The token cache -/

/-- The body of a successful token response, as the continuation receives it (`newToken`).
`rest` holds the fields other than `access_token`, `expires_in` and `refresh_time`. -/
structure TokenResponse where
  access_token : String
  expires_in : Int
  rest : List (String × String) := []
deriving DecidableEq, Repr

/-- The cached `token`: the response object after `newToken.refresh_time = ...` (line 72). -/
structure Token where
  access_token : String
  expires_in : Int
  rest : List (String × String)
  refresh_time : Int
deriving DecidableEq, Repr

/-- The state of a promise; values are access tokens, reasons are error messages. -/
inductive PromiseState where
  | pending : PromiseState
  | fulfilled (value : String) : PromiseState
  | rejected (reason : String) : PromiseState
deriving DecidableEq, Repr

/-- One run of lines 57-80: the request handed to `r2` and the promise
`r2(request_options).then(...)` that `accessTokenPromise` is set to. -/
structure Fetch where
  options : RequestOptions
  promise : PromiseState

/-- The closure state of `factory`: `token`, `accessTokenPromise` (the index of a fetch in
`fetches`, or `none` for `null`) and every token fetch started so far, oldest first. -/
structure State where
  token : Option Token
  accessTokenPromise : Option Nat
  fetches : List Fetch

/-- Lines 43-44: `let token = null; let accessTokenPromise = null`, nothing requested yet. -/
def State.init : State :=
  { token := none, accessTokenPromise := none, fetches := [] }

/-- What a `getAccessToken` call returns: a value (line 48) or a promise (lines 53, 82). -/
inductive CallResult where
  | value (v : String) : CallResult
  | promise (id : Nat) : CallResult
deriving DecidableEq, Repr

/-- Lines 57-65: the request for a new token. -/
def tokenRequestOptions (cfg : Config) : RequestOptions :=
  { uri := API_BASE_URL cfg ++ "/oauth/token"
    method := "POST"
    json := some (Json.obj
      [ ("grant_type", Json.str "client_credentials"),
        ("client_id", Json.str cfg.clientId),
        ("client_secret", Json.str cfg.clientSecret) ]) }

/-- Line 46: `token && Date.now() <= token.refresh_time`. -/
def cacheUsable (st : State) (now : Int) : Bool :=
  match st.token with
  | none => false
  | some tok => decide (now ≤ tok.refresh_time)

/-- Lines 67-80 at the moment `r2` is called: the request is issued, the promise of
`r2(request_options).then(...)` is pending and `accessTokenPromise` refers to it. -/
def startFetch (cfg : Config) (st : State) : State :=
  { st with
    accessTokenPromise := some st.fetches.length
    fetches := st.fetches ++ [{ options := tokenRequestOptions cfg, promise := .pending }] }

/-- Lines 45-83, called at time `now`: the new state and the returned value or promise. -/
def getAccessToken (cfg : Config) (now : Int) (st : State) : State × CallResult :=
  match st.token with
  | some tok =>
    if now ≤ tok.refresh_time then
      -- line 48: reuse the cached token
      (st, CallResult.value tok.access_token)
    else
      match st.accessTokenPromise with
      | some p => (st, CallResult.promise p)
      | none => (startFetch cfg st, CallResult.promise st.fetches.length)
  | none =>
    match st.accessTokenPromise with
    | some p => (st, CallResult.promise p)
    | none => (startFetch cfg st, CallResult.promise st.fetches.length)

/-- Line 72-73: `newToken.refresh_time = Date.now() + (newToken.expires_in - 60) * 1000`,
then `token = newToken`. -/
def withRefreshTime (newToken : TokenResponse) (now : Int) : Token :=
  { access_token := newToken.access_token
    expires_in := newToken.expires_in
    rest := newToken.rest
    refresh_time := now + (newToken.expires_in - 60) * 1000 }

/-- The token request of fetch `id` settles at time `now`.  `Except.ok newToken`: `r2` resolves
with the body and the continuation of lines 68-80 runs.  `Except.error err`: `r2` rejects; the
`.then` has no rejection handler, so its promise is rejected with the same reason and nothing
else runs.  `none` when fetch `id` does not exist or has settled already. -/
def completeFetch (id : Nat) (outcome : Except String TokenResponse) (now : Int) (st : State) :
    Option State :=
  match st.fetches[id]? with
  | none => none
  | some f =>
    match f.promise with
    | .pending =>
      match outcome with
      | .ok newToken =>
        some
          { token := some (withRefreshTime newToken now)
            accessTokenPromise := none
            fetches := st.fetches.set id { f with promise := .fulfilled newToken.access_token } }
      | .error err =>
        some { st with fetches := st.fetches.set id { f with promise := .rejected err } }
    | _ => none

/-- What the caller holding `r` observes in state `st`.  An `async` function that returns a
value is fulfilled with it; one that returns a promise follows that promise. -/
def settled (st : State) (r : CallResult) : PromiseState :=
  match r with
  | .value v => .fulfilled v
  | .promise id =>
    match st.fetches[id]? with
    | some f => f.promise
    | none => .pending

/-- Is the token request of this fetch still outstanding? -/
def Fetch.isPending (f : Fetch) : Bool :=
  match f.promise with
  | .pending => true
  | _ => false

/-- The number of token requests that have been issued and have not settled. -/
def outstanding (st : State) : Nat :=
  st.fetches.countP Fetch.isPending

/-- The events of the event loop that touch the token cache. -/
inductive Event where
  | call (now : Int) : Event
  | complete (id : Nat) (outcome : Except String TokenResponse) (now : Int) : Event

/-- One event; `none` when the event cannot happen in `st`. -/
def step (cfg : Config) (st : State) : Event → Option State
  | .call now => some (getAccessToken cfg now st).1
  | .complete id outcome now => completeFetch id outcome now st

/-- The states reachable from `State.init` by calls and completions in any order. -/
inductive Reachable (cfg : Config) : State → Prop where
  | init : Reachable cfg State.init
  | step {st st' : State} (ev : Event) :
      Reachable cfg st → step cfg st ev = some st' → Reachable cfg st'

/-- A run of `getAccessToken` calls at the given times, with the results in order. -/
def callMany (cfg : Config) : List Int → State → State × List CallResult
  | [], st => (st, [])
  | now :: nows, st =>
    let r := getAccessToken cfg now st
    let rs := callMany cfg nows r.1
    (rs.1, r.2 :: rs.2)

/-! ## The inbound JWT gate -/

/-- The library `jwt-simple`, which is not part of the repository, as the two calls made of it.
Both return the payload of the token or throw. -/
structure JwtUtil where
  /-- The call `jwtUtil.decode(token, key)`: checks structure, signature and validity period. -/
  decode : String → String → Except String Json
  /-- The call `jwtUtil.decode(token, null, true)`: no signature check. -/
  decodeNoVerify : String → Except String Json

/-- What `getJWT` reads of the request.  `none` is `undefined`.  Header values are Latin-1
strings, so a character is one UTF-16 code unit. -/
structure Request where
  /-- The value of `req.query['jwt']`. -/
  queryJwt : Option String := none
  /-- The value of `req.headers['authorization']`. -/
  authorization : Option String := none
  /-- The value of `req.headers['Authorization']`. -/
  Authorization : Option String := none

/-- The object `{encoded, decoded}` that `getJWT` returns. -/
structure Jwt where
  encoded : String
  decoded : Json

/-- The method `s.substring(n)`. -/
def substring (s : String) (n : Nat) : String :=
  String.mk (s.data.drop n)

/-- The method `s.startsWith(p)`. -/
def startsWith (s p : String) : Bool :=
  p.data.isPrefixOf s.data

/-- Lines 621-623: `req.query['jwt'] || req.headers['authorization'].substring(7) ||
req.headers['Authorization'].substring(7)`.  The empty string and `undefined` are falsy;
calling `substring` on `undefined` throws. -/
def getJWT.firstChoice (req : Request) : Except String String :=
  let fromHeaders : Except String String :=
    match req.authorization with
    | none => .error "TypeError: cannot read property substring of undefined"
    | some a =>
      if substring a 7 ≠ "" then .ok (substring a 7)
      else
        match req.Authorization with
        | none => .error "TypeError: cannot read property substring of undefined"
        | some b => .ok (substring b 7)
  match req.queryJwt with
  | some q => if q ≠ "" then .ok q else fromHeaders
  | none => fromHeaders

/-- Lines 621-630: the encoded token that `getJWT` settles on, or the exception thrown. -/
def getJWT.encodedJwt (req : Request) : Except String String :=
  match getJWT.firstChoice req with
  | .error e => .error e
  | .ok first =>
    -- lines 625-627
    let encodedJwt : String :=
      match req.authorization with
      | some a => if a ≠ "" ∧ startsWith a "Bearer" = false then a else first
      | none => first
    -- lines 629-630
    if encodedJwt = "" then .error "Stride/getJWT: expected encoded JWT not found!"
    else .ok encodedJwt

/-- Lines 617-640. -/
def getJWT (lib : JwtUtil) (req : Request) : Except String Jwt :=
  match getJWT.encodedJwt req with
  | .error e => .error e
  | .ok encodedJwt =>
    -- line 633
    match lib.decodeNoVerify encodedJwt with
    | .error e => .error e
    | .ok decodedJwt => .ok { encoded := encodedJwt, decoded := decodedJwt }

/-- The property read `v.key` for the keys read by `validateJWT`; `none` is `undefined`.
Reading a property of `undefined` or `null` throws; a value that is not an object has none
of these keys. -/
def getProp (v : Option Json) (key : String) : Except String (Option Json) :=
  match v with
  | none => .error ("TypeError: cannot read property " ++ key ++ " of undefined")
  | some .null => .error ("TypeError: cannot read property " ++ key ++ " of null")
  | some (.obj fields) => .ok (fields.lookup key)
  | some _ => .ok none

/-- The object `{cloudId, conversationId, userId}` of line 672. -/
structure Context where
  cloudId : Option Json
  conversationId : Option Json
  userId : Option Json

/-- Lines 650-671: everything in the `try` block before `res.locals.context` is assigned. -/
def validateJWT.readContext (lib : JwtUtil) (cfg : Config) (req : Request) :
    Except String Context :=
  match getJWT lib req with
  | .error e => .error e
  | .ok jwt =>
    -- line 656
    match lib.decode jwt.encoded cfg.clientSecret with
    | .error e => .error e
    | .ok _ =>
      -- lines 662-664
      match getProp (some jwt.decoded) "context" with
      | .error e => .error e
      | .ok context =>
        match getProp context "resourceId" with
        | .error e => .error e
        | .ok conversationId =>
          match getProp context "cloudId" with
          | .error e => .error e
          | .ok cloudId =>
            match getProp (some jwt.decoded) "sub" with
            | .error e => .error e
            | .ok userId =>
              .ok { cloudId := cloudId, conversationId := conversationId, userId := userId }

/-- What `validateJWT` does to `res` and `next`: `res.locals.context`, the status sent with
`res.sendStatus` and the number of times `next` was called. -/
structure Response where
  context : Option Context := none
  status : Option Nat := none
  nextCalls : Nat := 0

/-- The call `res.sendStatus(code)`. -/
def Response.sendStatus (res : Response) (code : Nat) : Response :=
  { res with status := some code }

/-- Lines 642-681.  `next` is the outcome of calling the rest of the chain: it returns or
throws. -/
def validateJWT (lib : JwtUtil) (cfg : Config) (req : Request) (next : Except String Unit)
    (res : Response) : Response :=
  match validateJWT.readContext lib cfg req with
  | .error _ => res.sendStatus 403
  | .ok ctx =>
    -- lines 672-675
    let res1 : Response := { res with context := some ctx }
    let res2 : Response := { res1 with nextCalls := res1.nextCalls + 1 }
    match next with
    | .ok _ => res2
    | .error _ => res2.sendStatus 403

/-- What `jwt-simple` guarantees of its two calls: `jwt.decode` parses the payload first and
then, unless `noVerify` is set, checks signature and validity period before returning that
same payload.  So a token that passes the verifying decode has the same payload without
verification. -/
def JwtUtil.Coherent (lib : JwtUtil) : Prop :=
  ∀ (token key : String) (payload : Json),
    lib.decode token key = .ok payload → lib.decodeNoVerify token = .ok payload

/-- The claims `context.cloudId`, `context.resourceId` and `sub` of a payload, read as lines
662-664 read them. -/
def contextOfClaims (payload : Json) : Except String Context :=
  match getProp (some payload) "context" with
  | .error e => .error e
  | .ok context =>
    match getProp context "resourceId" with
    | .error e => .error e
    | .ok conversationId =>
      match getProp context "cloudId" with
      | .error e => .error e
      | .ok cloudId =>
        match getProp (some payload) "sub" with
        | .error e => .error e
        | .ok userId =>
          .ok { cloudId := cloudId, conversationId := conversationId, userId := userId }

/-- The context as the specification words it: the claims of the payload that the
signature-verifying decode of the extracted token returns.  The unverified decode is not
consulted. -/
def validateJWT.contextOfVerified (lib : JwtUtil) (cfg : Config) (req : Request) :
    Except String Context :=
  match getJWT.encodedJwt req with
  | .error e => .error e
  | .ok token =>
    match lib.decode token cfg.clientSecret with
    | .error e => .error e
    | .ok payload => contextOfClaims payload

/-! ## The HTTP wrapper `r2` -/

/-- What `r2` reads of the `response` argument of the callback. -/
structure HttpResponse (β : Type) where
  statusCode : Nat
  body : β

/-- The arguments `(err, response, body)` with which the HTTP client calls back; `none` is
`null` or `undefined`. -/
structure Reply (β : Type) where
  err : Option String
  response : Option (HttpResponse β)
  body : β

/-- How a call of the callback of `r2` ends: the promise is resolved, it is rejected, or the
callback itself throws (and the promise stays pending). -/
inductive Settlement (β : Type) where
  | resolved (body : β) : Settlement β
  | rejected (reason : String) : Settlement β
  | thrown (error : String) : Settlement β

/-- The object handed to `prettify_json` on lines 26 and 31: `logDetails.request` is the
`options` of the call, `err` the error of the client, and `responseBody` is present on line
31 only. -/
structure LogDetails (β : Type) where
  request : RequestOptions
  err : Option String
  responseBody : Option β

/-- Lines 24-36, the callback of the call `r2(options)`.  `prettify_json` (lines 8-10) wraps
`prettyjson.render`, a library that is not part of the repository: it returns the rendered
text or throws.  Its argument is evaluated before `reject` is reached, so when it throws the
callback throws and the promise is never settled.  With no `err` and no `response`, line 31
throws already at `response.body`.  The logger is taken to return. -/
def r2.callback {β : Type} (prettify_json : LogDetails β → Except String String)
    (options : RequestOptions) (reply : Reply β) : Settlement β :=
  match reply.err with
  | some err =>
    -- lines 25-28
    match prettify_json { request := options, err := some err, responseBody := none } with
    | .error thrown => .thrown thrown
    | .ok _ => .rejected err
  | none =>
    match reply.response with
    | none => .thrown "TypeError: cannot read property body of undefined"
    | some response =>
      if response.statusCode ≥ 399 then
        -- lines 30-33
        match prettify_json
            { request := options, err := none, responseBody := some response.body } with
        | .error thrown => .thrown thrown
        | .ok _ => .rejected "Request failed"
      else .resolved reply.body

/-- Lines 16-38 against an HTTP client that answers each request with a reply: the requests
handed to the client, in order, and how the promise ends. -/
def r2 {β : Type} (prettify_json : LogDetails β → Except String String)
    (client : RequestOptions → Reply β) (options : RequestOptions) :
    List RequestOptions × Settlement β :=
  ([options], r2.callback prettify_json options (client options))

/-! ## The API functions -/

/-- JavaScript truthiness of a JSON value. -/
def Json.truthy : Json → Bool
  | .null => false
  | .bool b => b
  | .num n => decide (n ≠ 0)
  | .str s => decide (s ≠ "")
  | .arr _ => true
  | .obj _ => true

/-- The check `if (!x) throw new Error(msg)` on a string parameter (`none` is `undefined`). -/
def required (x : Option String) (msg : String) : Except String String :=
  match x with
  | none => .error msg
  | some s => if s = "" then .error msg else .ok s

/-- The check `if (!x) throw new Error(msg)` on a parameter that may be any value. -/
def requiredValue (x : Option Json) (msg : String) : Except String Json :=
  match x with
  | none => .error msg
  | some v => if v.truthy then .ok v else .error msg

/-- The two checks `if (!document) throw ...` and
`if (!document.content || !Array.isArray(document.content)) throw ...`. -/
def requiredDocument (document : Option Json) (missing wrong : String) : Except String Json :=
  match requiredValue document missing with
  | .error e => .error e
  | .ok d =>
    match getProp (some d) "content" with
    | .ok (some (.arr _)) => .ok d
    | _ => .error wrong

/-- An `async` API function up to `const accessToken = await getAccessToken()`: it has thrown
(its promise is rejected and nothing else was done), or it reaches the `await` with the rest
of its body, which builds `options` from the access token and returns `r2(options)`. -/
abbrev ApiCall := Except String (String → RequestOptions)

/-- Lines 94-119. -/
def sendMessage (cfg : Config) (cloudId conversationId : Option String)
    (document : Option Json) : ApiCall := do
  let cloudId ← required cloudId "Stride/sendMessage: missing param cloudId!"
  let conversationId ← required conversationId "Stride/sendMessage: missing param conversationId!"
  let document ← requiredDocument document "Stride/sendMessage: missing param documentMessage!"
    "Stride/sendMessage: wrong message format!"
  pure fun accessToken =>
    { uri := API_BASE_URL cfg ++ "/site/" ++ cloudId ++ "/conversation/" ++ conversationId
        ++ "/message"
      method := "POST"
      headers := [("authorization", "Bearer " ++ accessToken), ("cache-control", "no-cache")]
      json := some (Json.obj [("body", document)]) }

/-- Lines 121-149. -/
def updateMessage (cfg : Config) (cloudId conversationId messageId : Option String)
    (document : Option Json) : ApiCall := do
  let cloudId ← required cloudId "Stride/sendMessage: missing param cloudId!"
  let conversationId ← required conversationId "Stride/sendMessage: missing param conversationId!"
  let messageId ← required messageId "Stride/sendMessage: missing param messageId!"
  let document ← requiredDocument document "Stride/sendMessage: missing param document!"
    "Stride/sendMessage: wrong message format!"
  pure fun accessToken =>
    { uri := API_BASE_URL cfg ++ "/site/" ++ cloudId ++ "/conversation/" ++ conversationId
        ++ "/message/" ++ messageId
      method := "PUT"
      headers := [("authorization", "Bearer " ++ accessToken), ("cache-control", "no-cache")]
      json := some (Json.obj [("body", document)]) }

/-- Lines 163-183: `sendPrivateMessage` up to its first request, which looks up the direct
conversation with the user. -/
def sendPrivateMessage (cfg : Config) (cloudId userId : Option String)
    (document : Option Json) : ApiCall := do
  let cloudId ← required cloudId "Stride/sendPrivateMessage: missing param cloudId!"
  let userId ← required userId "Stride/sendPrivateMessage: missing param userId!"
  let _ ← requiredDocument document "Stride/sendPrivateMessage: missing param documentMessage!"
    "Stride/sendPrivateMessage: wrong message format!"
  pure fun accessToken =>
    { uri := API_BASE_URL cfg ++ "/site/" ++ cloudId ++ "/conversation/user/" ++ userId
      method := "GET"
      headers := [("authorization", "Bearer " ++ accessToken), ("cache-control", "no-cache")] }

/-- Lines 185-200: the second request of `sendPrivateMessage`, built when the looked-up
conversation has an `id`. -/
def sendPrivateMessage.sendMessageOptions (cfg : Config) (cloudId conversationId : String)
    (document : Json) (accessToken : String) : RequestOptions :=
  { uri := API_BASE_URL cfg ++ "/site/" ++ cloudId ++ "/conversation/" ++ conversationId
      ++ "/message"
    method := "POST"
    headers := [("authorization", "Bearer " ++ accessToken), ("cache-control", "no-cache")]
    json := some (Json.obj [("body", document)]) }

/-- Lines 209-227 up to `r2(options)`; the response is then passed through `JSON.parse`. -/
def getConversation (cfg : Config) (cloudId conversationId : Option String) : ApiCall := do
  let cloudId ← required cloudId "Stride/getConversation: missing param cloudId!"
  let conversationId ←
    required conversationId "Stride/getConversation: missing param conversationId!"
  pure fun accessToken =>
    { uri := API_BASE_URL cfg ++ "/site/" ++ cloudId ++ "/conversation/" ++ conversationId
      method := "GET"
      headers := [("authorization", "Bearer " ++ accessToken), ("cache-control", "no-cache")] }

/-- Lines 232-255; `privacy` defaults to `public` and `topic` to the empty string. -/
def createConversation (cfg : Config) (cloudId name : Option String)
    (privacy topic : Option String) : ApiCall := do
  let cloudId ← required cloudId "Stride/createConversation: missing param cloudId!"
  let name ← required name "Stride/createConversation: missing param name!"
  pure fun accessToken =>
    { uri := API_BASE_URL cfg ++ "/site/" ++ cloudId ++ "/conversation"
      method := "POST"
      headers := [("authorization", "Bearer " ++ accessToken), ("cache-control", "no-cache")]
      json := some (Json.obj
        [ ("name", Json.str name),
          ("privacy", Json.str (privacy.getD "public")),
          ("topic", Json.str (topic.getD "")) ]) }

/-- Lines 260-277. -/
def archiveConversation (cfg : Config) (cloudId conversationId : Option String) : ApiCall := do
  let cloudId ← required cloudId "Stride/archiveConversation: missing param cloudId!"
  let conversationId ←
    required conversationId "Stride/archiveConversation: missing param conversationId!"
  pure fun accessToken =>
    { uri := API_BASE_URL cfg ++ "/site/" ++ cloudId ++ "/conversation/" ++ conversationId
        ++ "/archive"
      method := "PUT"
      headers := [("authorization", "Bearer " ++ accessToken), ("cache-control", "no-cache")] }

/-- Lines 282-300 up to `r2(options)`. -/
def getConversationHistory (cfg : Config) (cloudId conversationId : Option String) :
    ApiCall := do
  let cloudId ← required cloudId "Stride/getConversationHistory: missing param cloudId!"
  let conversationId ←
    required conversationId "Stride/getConversationHistory: missing param conversationId!"
  pure fun accessToken =>
    { uri := API_BASE_URL cfg ++ "/site/" ++ cloudId ++ "/conversation/" ++ conversationId
        ++ "/message?limit=5"
      method := "GET"
      headers := [("authorization", "Bearer " ++ accessToken), ("cache-control", "no-cache")] }

/-- Lines 305-323 up to `r2(options)`. -/
def getConversationRoster (cfg : Config) (cloudId conversationId : Option String) :
    ApiCall := do
  let cloudId ← required cloudId "Stride/getConversationRoster: missing param cloudId!"
  let conversationId ←
    required conversationId "Stride/getConversationRoster: missing param conversationId!"
  pure fun accessToken =>
    { uri := API_BASE_URL cfg ++ "/site/" ++ cloudId ++ "/conversation/" ++ conversationId
        ++ "/roster"
      method := "GET"
      headers := [("authorization", "Bearer " ++ accessToken), ("cache-control", "no-cache")] }

/-- Lines 328-350; `stream` is the name of the stream passed as `body`. -/
def sendMedia (cfg : Config) (cloudId conversationId name stream : Option String) :
    ApiCall := do
  let cloudId ← required cloudId "Stride/sendMedia: missing param cloudId!"
  let conversationId ← required conversationId "Stride/sendMedia: missing param conversationId!"
  let name ← required name "Stride/sendMedia: missing param name!"
  let stream ← required stream "Stride/sendMedia: missing param stream!"
  pure fun accessToken =>
    { uri := API_BASE_URL cfg ++ "/site/" ++ cloudId ++ "/conversation/" ++ conversationId
        ++ "/media?name=" ++ name
      method := "POST"
      headers := [("authorization", "Bearer " ++ accessToken),
                  ("content-type", "application/octet-stream")]
      body := some stream }

/-- An object literal whose property values may be `undefined` (`none`); such properties are
left out, as they are when the object is serialised. -/
def objectLiteral (fields : List (String × Option Json)) : Json :=
  Json.obj (fields.filterMap fun kv => kv.2.map fun v => (kv.1, v))

/-- Lines 355-385. -/
def updateGlanceState (cfg : Config) (cloudId conversationId glanceKey : Option String)
    (stateTxt : Option Json) : ApiCall := do
  let cloudId ← required cloudId "Stride/updateGlanceState: missing param cloudId!"
  let conversationId ←
    required conversationId "Stride/updateGlanceState: missing param conversationId!"
  let glanceKey ← required glanceKey "Stride/updateGlanceState: missing param glanceKey!"
  let stateTxt ← requiredValue stateTxt "Stride/updateGlanceState: missing param stateTxt!"
  pure fun accessToken =>
    { uri := API_BASE_URL cfg ++ "/app/module/chat/conversation/chat:glance/" ++ glanceKey
        ++ "/state"
      method := "POST"
      headers := [("authorization", "Bearer " ++ accessToken), ("cache-control", "no-cache")]
      json := some (Json.obj
        [ ("context", Json.obj [("cloudId", Json.str cloudId),
                                ("conversationId", Json.str conversationId)]),
          ("label", stateTxt),
          ("metadata", Json.obj []) ]) }

/-- Lines 390-419. -/
def updateConfigurationState (cfg : Config) (cloudId conversationId configKey : Option String)
    (state : Option Json) : ApiCall := do
  let cloudId ← required cloudId "Stride/updateConfigurationState: missing param cloudId!"
  let conversationId ←
    required conversationId "Stride/updateConfigurationState: missing param conversationId!"
  let configKey ← required configKey "Stride/updateConfigurationState: missing param configKey!"
  let state ← requiredValue state "Stride/updateConfigurationState: missing param state!"
  pure fun accessToken =>
    { uri := API_BASE_URL cfg ++ "/app/module/chat/conversation/chat:configuration/"
        ++ configKey ++ "/state"
      method := "POST"
      headers := [("authorization", "Bearer " ++ accessToken), ("cache-control", "no-cache")]
      json := some (Json.obj
        [ ("context", Json.obj [("cloudId", Json.str cloudId),
                                ("conversationId", Json.str conversationId)]),
          ("configured", state) ]) }

/-- Lines 424-442 up to `r2(options)`; the response is then passed through `JSON.parse`. -/
def getUser (cfg : Config) (cloudId userId : Option String) : ApiCall := do
  let cloudId ← required cloudId "Stride/getUser: missing param cloudId!"
  let userId ← required userId "Stride/getUser: missing param userId!"
  pure fun accessToken =>
    { uri := API_BASE_URL cfg ++ "/scim/site/" ++ cloudId ++ "/Users/" ++ userId
      method := "GET"
      headers := [("authorization", "Bearer " ++ accessToken), ("cache-control", "no-cache")] }

/-- Lines 543-563. -/
def convertDocToText (cfg : Config) (document : Option Json) : ApiCall := do
  let document ← requiredDocument document "Stride/convertDocToText: missing param document!"
    "Stride/convertDocToText: wrong format!"
  pure fun accessToken =>
    { uri := API_BASE_URL cfg ++ "/pf-editor-service/render"
      method := "POST"
      headers := [("content-type", "application/json"), ("accept", "text/plain"),
                  ("authorization", "Bearer " ++ accessToken)]
      json := some document }

/-- Lines 586-602; there is no check of `markdown`. -/
def convertMarkdownToDoc (cfg : Config) (markdown : Option Json) : ApiCall :=
  pure fun accessToken =>
    { uri := API_BASE_URL cfg ++ "/pf-editor-service/convert?from=markdown&to=adf"
      method := "POST"
      headers := [("content-type", "application/json"),
                  ("authorization", "Bearer " ++ accessToken)]
      json := some (objectLiteral [("input", markdown)]) }

/-- A call of one of the API functions that issue a single request, with its arguments. -/
inductive ApiInvocation where
  | sendMessage (cloudId conversationId : Option String) (document : Option Json)
  | updateMessage (cloudId conversationId messageId : Option String) (document : Option Json)
  | getConversation (cloudId conversationId : Option String)
  | createConversation (cloudId name privacy topic : Option String)
  | archiveConversation (cloudId conversationId : Option String)
  | getConversationHistory (cloudId conversationId : Option String)
  | getConversationRoster (cloudId conversationId : Option String)
  | sendMedia (cloudId conversationId name stream : Option String)
  | updateGlanceState (cloudId conversationId glanceKey : Option String) (stateTxt : Option Json)
  | updateConfigurationState (cloudId conversationId configKey : Option String)
      (state : Option Json)
  | getUser (cloudId userId : Option String)
  | convertDocToText (document : Option Json)
  | convertMarkdownToDoc (markdown : Option Json)

/-- The function an invocation names, applied to its arguments. -/
def ApiInvocation.call (cfg : Config) : ApiInvocation → ApiCall
  | .sendMessage c v d => Stride.sendMessage cfg c v d
  | .updateMessage c v m d => Stride.updateMessage cfg c v m d
  | .getConversation c v => Stride.getConversation cfg c v
  | .createConversation c n p t => Stride.createConversation cfg c n p t
  | .archiveConversation c v => Stride.archiveConversation cfg c v
  | .getConversationHistory c v => Stride.getConversationHistory cfg c v
  | .getConversationRoster c v => Stride.getConversationRoster cfg c v
  | .sendMedia c v n st => Stride.sendMedia cfg c v n st
  | .updateGlanceState c v g t => Stride.updateGlanceState cfg c v g t
  | .updateConfigurationState c v k t => Stride.updateConfigurationState cfg c v k t
  | .getUser c u => Stride.getUser cfg c u
  | .convertDocToText d => Stride.convertDocToText cfg d
  | .convertMarkdownToDoc m => Stride.convertMarkdownToDoc cfg m

/-- An API function suspended at `await getAccessToken()`: what it awaits and the rest of
its body. -/
structure Suspended where
  awaiting : CallResult
  resume : String → RequestOptions

/-- An API function is called at time `now`: it throws in its checks and nothing else
happens, or it calls `getAccessToken` and suspends on the result. -/
def ApiCall.start (call : ApiCall) (cfg : Config) (now : Int) (st : State) :
    State × Except String Suspended :=
  match call with
  | .error e => (st, .error e)
  | .ok build =>
    ((getAccessToken cfg now st).1,
      .ok { awaiting := (getAccessToken cfg now st).2, resume := build })

/-- The API requests a suspended function has handed to `r2`, seen in state `st`: its one
request once the awaited promise is fulfilled, none while it is pending, and none if it is
rejected (the `await` throws and the function returns a rejected promise). -/
def Suspended.issued (s : Suspended) (st : State) : List RequestOptions :=
  match settled st s.awaiting with
  | .fulfilled accessToken => [s.resume accessToken]
  | .rejected _ => []
  | .pending => []

/-- The requests that the client hands to `r2`: the token request and the requests of the
API functions. -/
inductive Outbound (cfg : Config) : RequestOptions → Prop where
  | token : Outbound cfg (tokenRequestOptions cfg)
  | api (inv : ApiInvocation) (build : String → RequestOptions) (accessToken : String) :
      inv.call cfg = .ok build → Outbound cfg (build accessToken)
  | privateLookup (cloudId userId : Option String) (document : Option Json)
      (build : String → RequestOptions) (accessToken : String) :
      sendPrivateMessage cfg cloudId userId document = .ok build →
      Outbound cfg (build accessToken)
  | privateSend (cloudId conversationId : String) (document : Json) (accessToken : String) :
      Outbound cfg (sendPrivateMessage.sendMessageOptions cfg cloudId conversationId document
        accessToken)

/-! ## Documents -/

/-- The scan behind `s.split(sep)` for a non-empty separator: `skip` characters of a matched
separator are still to be passed over, `acc` holds the current segment in reverse. -/
def split.go (sep : List Char) : List Char → Nat → List Char → List (List Char)
  | [], _, acc => [acc.reverse]
  | _ :: cs, skip + 1, acc => split.go sep cs skip acc
  | c :: cs, 0, acc =>
    if sep.isPrefixOf (c :: cs) then acc.reverse :: split.go sep cs (sep.length - 1) []
    else split.go sep cs 0 (c :: acc)

/-- The method `s.split(sep)` for a non-empty separator `sep`: the segments between the
occurrences of `sep`, found from left to right without overlap. -/
def split (s sep : String) : List String :=
  (split.go sep.data s.data 0 []).map String.mk

/-- The placeholder of `createDocMentioningUser`, the string `{{MENTION}}`. -/
def MENTION : String := "\x7b\x7bMENTION\x7d\x7d"

/-- The node `{type: "text", text: part}`. -/
def textNode (part : String) : Json :=
  Json.obj [("type", Json.str "text"), ("text", Json.str part)]

/-- Lines 491-497: `while (msgParts.length)` pushes the mention and then the next part. -/
def createDocMentioningUser.rest (mention : Json) : List String → List Json
  | [] => []
  | part :: msgParts => mention :: textNode part :: createDocMentioningUser.rest mention msgParts

/-- Lines 481-497: `paragraphContent` for the parts the text was split into. -/
def createDocMentioningUser.paragraphContent (mention : Json) (msgParts : List String) :
    List Json :=
  match msgParts with
  | first :: second :: more =>
    -- lines 483-488: `msgParts.length > 1`
    textNode first :: createDocMentioningUser.rest mention (second :: more)
  | msgParts => createDocMentioningUser.rest mention msgParts

/-- Lines 473-479: the node `{type: "mention", attrs: {id: user.id, text: user.displayName}}`
for the values read from `user`. -/
def mentionNode (id displayName : Option Json) : Json :=
  Json.obj [("type", Json.str "mention"),
            ("attrs", objectLiteral [("id", id), ("text", displayName)])]

/-- Lines 473-509: the document built once `getUser` has answered with `user`. -/
def createDocMentioningUser.document (user : Json) (text : String) : Except String Json :=
  match getProp (some user) "id" with
  | .error e => .error e
  | .ok id =>
    match getProp (some user) "displayName" with
    | .error e => .error e
    | .ok displayName =>
      let mention : Json := mentionNode id displayName
      let paragraphContent :=
        createDocMentioningUser.paragraphContent mention (split text MENTION)
      .ok (Json.obj
        [ ("version", Json.num 1),
          ("type", Json.str "doc"),
          ("content", Json.arr
            [Json.obj [("type", Json.str "paragraph"),
                       ("content", Json.arr paragraphContent)]]) ])

/-- Lines 463-510: the checks, then `await getUser({cloudId, userId})`, then the document
built from the user that call resolves to. -/
def createDocMentioningUser (cfg : Config) (cloudId userId text : Option String) :
    Except String (ApiCall × (Json → Except String Json)) := do
  let _ ← required cloudId "Stride/sendTextMessageMentioningUser: missing param cloudId!"
  let _ ← required userId "Stride/sendTextMessageMentioningUser: missing param userId!"
  let text ← required text "Stride/sendTextMessageMentioningUser: missing param text!"
  pure (getUser cfg cloudId userId, fun user => createDocMentioningUser.document user text)

/-! ## The text helpers -/

/-- Lines 565-584. -/
def convertTextToDoc (text : Option String) : Except String Json := do
  let text ← required text "Stride/convertTextToDoc: missing param text!"
  pure (Json.obj
    [ ("version", Json.num 1),
      ("type", Json.str "doc"),
      ("content", Json.arr
        [Json.obj
          [ ("type", Json.str "paragraph"),
            ("content", Json.arr
              [Json.obj [("type", Json.str "text"), ("text", Json.str text)]]) ]]) ])

/-- Lines 448-457. -/
def sendTextMessage (cfg : Config) (cloudId conversationId text : Option String) : ApiCall := do
  let cloudId ← required cloudId "Stride/sendTextMessage: missing param cloudId!"
  let conversationId ←
    required conversationId "Stride/sendTextMessage: missing param conversationId!"
  let text ← required text "Stride/sendTextMessage: missing param text!"
  let document ← convertTextToDoc (some text)
  sendMessage cfg (some cloudId) (some conversationId) (some document)

/-- What `reply` and `replyWithText` read of `reqBody.conversation`. -/
structure Conversation where
  id : Option String := none

/-- What `reply` and `replyWithText` read of `reqBody`, the body of a webhook call. -/
structure ReqBody where
  cloudId : Option String := none
  conversation : Option Conversation := none

/-- The read `reqBody.conversation.id`, which throws when there is no conversation. -/
def ReqBody.conversationId (reqBody : ReqBody) : Except String (Option String) :=
  match reqBody.conversation with
  | none => .error "TypeError: cannot read property id of undefined"
  | some conversation => .ok conversation.id

/-- Lines 512-524. -/
def reply (cfg : Config) (reqBody : Option ReqBody) (document : Option Json) : ApiCall := do
  let reqBody ←
    match reqBody with
    | none => Except.error "Stride/reply: missing param reqBody!"
    | some b => Except.ok b
  let document ← requiredDocument document "Stride/reply: missing param document!"
    "Stride/reply: wrong message format!"
  let cloudId := reqBody.cloudId
  let conversationId ← reqBody.conversationId
  sendMessage cfg cloudId conversationId (some document)

/-- Lines 526-536. -/
def replyWithText (cfg : Config) (reqBody : Option ReqBody) (text : Option String) :
    ApiCall := do
  let reqBody ←
    match reqBody with
    | none => Except.error "Stride/replyWithText: missing param reqBody!"
    | some b => Except.ok b
  let text ← required text "Stride/replyWithText: missing param text!"
  let cloudId := reqBody.cloudId
  let conversationId ← reqBody.conversationId
  sendTextMessage cfg cloudId conversationId (some text)

/-- The property `v.key` of a value that is neither `undefined` nor `null`: the binding of an
object, and `undefined` for any other value. -/
def Json.field (v : Json) (key : String) : Option Json :=
  match v with
  | .obj fields => fields.lookup key
  | _ => none

/-- The API requests that a call of an API function at time `now` in state `st` has handed
to `r2`, seen in a later state `st'`; none when the function threw in its checks. -/
def ApiCall.issued (call : ApiCall) (cfg : Config) (now : Int) (st st' : State) :
    List RequestOptions :=
  match (call.start cfg now st).2 with
  | .ok s => s.issued st'
  | .error _ => []

/-! ## Concrete data for the instances below -/

/-- A client configured with defaults (`env` is `development`). -/
def exampleConfig : Config :=
  { clientId := "client-id", clientSecret := "client-secret" }

/-- A token response that lasts an hour. -/
def exampleResponse : TokenResponse :=
  { access_token := "token-A", expires_in := 3600 }

/-- A second token response. -/
def exampleResponse2 : TokenResponse :=
  { access_token := "token-B", expires_in := 3600, rest := [("token_type", "Bearer")] }

/-- The state after one call at time 1000 from the initial state: one fetch in flight. -/
def exampleInFlight : State :=
  (getAccessToken exampleConfig 1000 State.init).1

/-- The state after that fetch succeeded at time 2000: `token-A` cached until 3542000. -/
def exampleCached : State :=
  { token := some (withRefreshTime exampleResponse 2000)
    accessTokenPromise := none
    fetches := [{ options := tokenRequestOptions exampleConfig,
                  promise := PromiseState.fulfilled "token-A" }] }

/-- The claims of a call from tenant `T1`, conversation `C1`, user `U1`. -/
def examplePayload : Json :=
  Json.obj
    [ ("iss", Json.str "client-id"),
      ("sub", Json.str "U1"),
      ("context", Json.obj [("cloudId", Json.str "T1"), ("resourceId", Json.str "C1")]) ]

/-- A stand-in for `jwt-simple` that knows one token, signed with `client-secret`. -/
def exampleJwtUtil : JwtUtil :=
  { decode := fun token key =>
      if token = "aaa.bbb.ccc" then
        if key = "client-secret" then .ok examplePayload
        else .error "Signature verification failed"
      else .error "Not enough or too many segments"
    decodeNoVerify := fun token =>
      if token = "aaa.bbb.ccc" then .ok examplePayload
      else .error "Not enough or too many segments" }

/-- Claims that name another tenant, conversation and user than `examplePayload`. -/
def exampleOtherPayload : Json :=
  Json.obj
    [ ("iss", Json.str "client-id"),
      ("sub", Json.str "U2"),
      ("context", Json.obj [("cloudId", Json.str "T2"), ("resourceId", Json.str "C2")]) ]

/-- A library with the verifying decode of `exampleJwtUtil` whose unverified decode returns
`exampleOtherPayload`. -/
def exampleSplitJwtUtil : JwtUtil :=
  { decode := exampleJwtUtil.decode
    decodeNoVerify := fun token =>
      if token = "aaa.bbb.ccc" then .ok exampleOtherPayload
      else .error "Not enough or too many segments" }

/-- A client whose secret is not the one the example token was signed with. -/
def exampleOtherConfig : Config :=
  { clientId := "client-id", clientSecret := "other-secret" }

/-- An HTTP client that answers every request with a redirect and no error. -/
def exampleRedirectClient : RequestOptions → Reply String :=
  fun _ => { err := none, response := some { statusCode := 302, body := "moved" },
             body := "moved" }

/-- An HTTP client that answers every request with status 200. -/
def exampleOkClient : RequestOptions → Reply String :=
  fun _ => { err := none, response := some { statusCode := 200, body := "done" },
             body := "done" }

/-- An HTTP client that reports a network error for every request. -/
def exampleErrorClient : RequestOptions → Reply String :=
  fun _ => { err := some "ECONNRESET", response := none, body := "" }

/-- An HTTP client that answers every request with status 399 and no error. -/
def exampleStatus399Client : RequestOptions → Reply String :=
  fun _ => { err := none, response := some { statusCode := 399, body := "odd" },
             body := "odd" }

/-- A renderer that, like `prettyjson.render` on an object holding a stream, throws when the
request carries a `body` stream and returns otherwise. -/
def examplePrettify : LogDetails String → Except String String :=
  fun details =>
    match details.request.body with
    | some _ => .error "RangeError: Maximum call stack size exceeded"
    | none => .ok "details"

/-- The request that `sendMedia` builds for a stream named `stream-1`. -/
def exampleMediaOptions : RequestOptions :=
  { uri := "https://api.stg.atlassian.com/site/T1/conversation/C1/media?name=cat.png"
    method := "POST"
    headers := [("authorization", "Bearer token-A"),
                ("content-type", "application/octet-stream")]
    body := some "stream-1" }

/-- A document with one empty paragraph. -/
def exampleDocument : Json :=
  Json.obj
    [ ("version", Json.num 1), ("type", Json.str "doc"),
      ("content", Json.arr [Json.obj [("type", Json.str "paragraph"), ("content", Json.arr [])]]) ]

/-- A call of `sendMessage` for tenant `T1` and conversation `C1`. -/
def exampleInvocation : ApiInvocation :=
  ApiInvocation.sendMessage (some "T1") (some "C1") (some exampleDocument)

/-- A user as `getUser` resolves to it. -/
def exampleUser : Json :=
  Json.obj [("id", Json.str "U1"), ("displayName", Json.str "Ann")]

/-- A token response that lasts thirty seconds. -/
def exampleShortResponse : TokenResponse :=
  { access_token := "token-S", expires_in := 30 }

/-- The claims of a token whose `context` is a string. -/
def exampleStringContextPayload : Json :=
  Json.obj [("sub", Json.str "U1"), ("context", Json.str "abc")]

/-- A stand-in for `jwt-simple` whose one token carries `exampleStringContextPayload`. -/
def exampleStringContextJwtUtil : JwtUtil :=
  { decode := fun token key =>
      if token = "ddd.eee.fff" then
        if key = "client-secret" then .ok exampleStringContextPayload
        else .error "Signature verification failed"
      else .error "Not enough or too many segments"
    decodeNoVerify := fun token =>
      if token = "ddd.eee.fff" then .ok exampleStringContextPayload
      else .error "Not enough or too many segments" }

/-- The body of a webhook call from tenant `T1` in conversation `C1`. -/
def exampleReqBody : ReqBody :=
  { cloudId := some "T1", conversation := some { id := some "C1" } }

/-- The state after `token-A` was cached at time 2000 and the refresh started at time 3542001
has failed at time 3543000. -/
def exampleExpiredFailed : State :=
  { token := some (withRefreshTime exampleResponse 2000)
    accessTokenPromise := some 1
    fetches := [{ options := tokenRequestOptions exampleConfig,
                  promise := PromiseState.fulfilled "token-A" },
                { options := tokenRequestOptions exampleConfig,
                  promise := PromiseState.rejected "Request failed" }] }

/-- The state after `token-S` (thirty seconds) was cached at time 2000 and the fetch started
at time 3000 has failed at time 4000. -/
def exampleShortFailed : State :=
  { token := some (withRefreshTime exampleShortResponse 2000)
    accessTokenPromise := some 1
    fetches := [{ options := tokenRequestOptions exampleConfig,
                  promise := PromiseState.fulfilled "token-S" },
                { options := tokenRequestOptions exampleConfig,
                  promise := PromiseState.rejected "Request failed" }] }

/-- The state after the fetch started at time 1000 has failed. -/
def exampleFailed : State :=
  { token := none
    accessTokenPromise := some 0
    fetches := [{ options := tokenRequestOptions exampleConfig,
                  promise := PromiseState.rejected "Request failed" }] }

/-! ## Lemmas on the token cache -/

theorem getAccessToken_hit (cfg : Config) (now : Int) (st : State) (tok : Token)
    (htok : st.token = some tok) (hfresh : now ≤ tok.refresh_time) :
    getAccessToken cfg now st = (st, CallResult.value tok.access_token) := by
  simp [getAccessToken, htok, hfresh]

theorem getAccessToken_join (cfg : Config) (now : Int) (st : State) (p : Nat)
    (hstale : cacheUsable st now = false) (hp : st.accessTokenPromise = some p) :
    getAccessToken cfg now st = (st, CallResult.promise p) := by
  unfold cacheUsable at hstale
  unfold getAccessToken
  cases htok : st.token with
  | none => simp [hp]
  | some tok =>
    rw [htok] at hstale
    have hlt : ¬ now ≤ tok.refresh_time := by simpa using hstale
    simp [hp, hlt]

theorem getAccessToken_start (cfg : Config) (now : Int) (st : State)
    (hstale : cacheUsable st now = false) (hp : st.accessTokenPromise = none) :
    getAccessToken cfg now st = (startFetch cfg st, CallResult.promise st.fetches.length) := by
  unfold cacheUsable at hstale
  unfold getAccessToken
  cases htok : st.token with
  | none => simp [hp]
  | some tok =>
    rw [htok] at hstale
    have hlt : ¬ now ≤ tok.refresh_time := by simpa using hstale
    simp [hp, hlt]

/-- The test of line 46 in words: a token is cached and `now <= token.refresh_time`. -/
theorem cacheUsable_iff (st : State) (now : Int) :
    cacheUsable st now = true ↔ ∃ tok, st.token = some tok ∧ now ≤ tok.refresh_time := by
  unfold cacheUsable
  cases st.token with
  | none => simp
  | some tok => simp

theorem cacheUsable_startFetch (cfg : Config) (st : State) (now : Int) :
    cacheUsable (startFetch cfg st) now = cacheUsable st now := rfl

theorem getElem?_startFetch (cfg : Config) (st : State) :
    (startFetch cfg st).fetches[st.fetches.length]? =
      some { options := tokenRequestOptions cfg, promise := PromiseState.pending } := by
  simp [startFetch]

theorem completeFetch_ok (id : Nat) (newToken : TokenResponse) (now : Int) (st : State)
    (f : Fetch) (hf : st.fetches[id]? = some f) (hpend : f.promise = PromiseState.pending) :
    completeFetch id (.ok newToken) now st =
      some
        { token := some (withRefreshTime newToken now)
          accessTokenPromise := none
          fetches :=
            st.fetches.set id { f with promise := PromiseState.fulfilled newToken.access_token } } := by
  simp [completeFetch, hf, hpend]

theorem completeFetch_error (id : Nat) (err : String) (now : Int) (st : State)
    (f : Fetch) (hf : st.fetches[id]? = some f) (hpend : f.promise = PromiseState.pending) :
    completeFetch id (.error err) now st =
      some { st with fetches := st.fetches.set id { f with promise := PromiseState.rejected err } } := by
  simp [completeFetch, hf, hpend]

/-- A completion is possible only for a fetch that exists and is pending. -/
theorem completeFetch_some (id : Nat) (outcome : Except String TokenResponse) (now : Int)
    (st st' : State) (h : completeFetch id outcome now st = some st') :
    ∃ f, st.fetches[id]? = some f ∧ f.promise = PromiseState.pending := by
  unfold completeFetch at h
  cases hf : st.fetches[id]? with
  | none => simp [hf] at h
  | some f =>
    refine ⟨f, rfl, ?_⟩
    cases hp : f.promise with
    | pending => rfl
    | fulfilled v => simp [hf, hp] at h
    | rejected e => simp [hf, hp] at h

theorem settled_set (st : State) (fs : List Fetch) (id : Nat) (f : Fetch)
    (hid : id < fs.length) (hfs : st.fetches = fs.set id f) :
    settled st (CallResult.promise id) = f.promise := by
  simp [settled, hfs, List.getElem?_set, hid]

/-- A call either leaves the state alone or, when no fetch is in flight, starts one. -/
theorem getAccessToken_state (cfg : Config) (now : Int) (st : State) :
    (getAccessToken cfg now st).1 = st ∨
      (st.accessTokenPromise = none ∧ (getAccessToken cfg now st).1 = startFetch cfg st) := by
  unfold getAccessToken
  cases st.token with
  | none =>
    cases hp : st.accessTokenPromise with
    | none => exact Or.inr ⟨rfl, rfl⟩
    | some p => exact Or.inl rfl
  | some tok =>
    by_cases hfresh : now ≤ tok.refresh_time
    · simp [hfresh]
    · cases hp : st.accessTokenPromise with
      | none => simp [hfresh]
      | some p => simp [hfresh]

/-- Every pending fetch is the one `accessTokenPromise` refers to. -/
theorem pending_is_marked_init :
    ∀ (i : Nat) (f : Fetch), State.init.fetches[i]? = some f → f.promise = PromiseState.pending →
      State.init.accessTokenPromise = some i := by
  intro i f hf
  simp [State.init] at hf

theorem pending_is_marked_call (cfg : Config) (now : Int) (st : State)
    (inv : ∀ (i : Nat) (f : Fetch), st.fetches[i]? = some f → f.promise = PromiseState.pending →
      st.accessTokenPromise = some i) :
    ∀ (i : Nat) (f : Fetch), (getAccessToken cfg now st).1.fetches[i]? = some f →
      f.promise = PromiseState.pending →
      (getAccessToken cfg now st).1.accessTokenPromise = some i := by
  rcases getAccessToken_state cfg now st with h | ⟨hidle, h⟩
  · rw [h]; exact inv
  · rw [h]
    intro i f hf hpend
    simp only [startFetch] at hf ⊢
    rcases Nat.lt_trichotomy i st.fetches.length with hlt | heq | hgt
    · rw [List.getElem?_append_left hlt] at hf
      have := inv i f hf hpend
      rw [hidle] at this
      cases this
    · rw [heq]
    · rw [List.getElem?_eq_none (by simp; omega)] at hf
      cases hf

/-- After a completion no fetch is pending (given the invariant before it). -/
theorem completeFetch_none_pending (id : Nat) (outcome : Except String TokenResponse) (now : Int)
    (st st' : State)
    (inv : ∀ (i : Nat) (f : Fetch), st.fetches[i]? = some f → f.promise = PromiseState.pending →
      st.accessTokenPromise = some i)
    (h : completeFetch id outcome now st = some st') :
    ∀ (i : Nat) (f : Fetch), st'.fetches[i]? = some f → f.promise ≠ PromiseState.pending := by
  obtain ⟨f0, hf0, hp0⟩ := completeFetch_some id outcome now st st' h
  have hmark := inv id f0 hf0 hp0
  have hfetches : ∃ ps, ps ≠ PromiseState.pending ∧
      st'.fetches = st.fetches.set id { f0 with promise := ps } := by
    cases outcome with
    | ok newToken =>
      rw [completeFetch_ok id newToken now st f0 hf0 hp0] at h
      cases h
      exact ⟨_, by simp, rfl⟩
    | error err =>
      rw [completeFetch_error id err now st f0 hf0 hp0] at h
      cases h
      exact ⟨_, by simp, rfl⟩
  obtain ⟨ps, hps, hset⟩ := hfetches
  intro i f hf hpend
  rw [hset, List.getElem?_set] at hf
  by_cases hi : id = i
  · subst hi
    simp only [if_true] at hf
    split at hf
    · cases hf
      exact hps hpend
    · cases hf
  · simp only [hi, if_false] at hf
    have := inv i f hf hpend
    rw [hmark] at this
    cases this
    exact hi rfl

theorem pending_is_marked (cfg : Config) (st : State) (h : Reachable cfg st) :
    ∀ (i : Nat) (f : Fetch), st.fetches[i]? = some f → f.promise = PromiseState.pending →
      st.accessTokenPromise = some i := by
  induction h with
  | init => exact pending_is_marked_init
  | @step s s' ev _ hstep ih =>
    cases ev with
    | call now =>
      simp only [step, Option.some.injEq] at hstep
      rw [← hstep]
      exact pending_is_marked_call cfg now s ih
    | complete id outcome now =>
      intro i f hf hpend
      exact absurd hpend (completeFetch_none_pending id outcome now s s' ih hstep i f hf)

/-- A list in which any two pending fetches have the same index has at most one. -/
theorem countP_isPending_le_one (fs : List Fetch)
    (h : ∀ (i j : Nat) (fi fj : Fetch), fs[i]? = some fi → fs[j]? = some fj →
      fi.isPending = true → fj.isPending = true → i = j) :
    fs.countP Fetch.isPending ≤ 1 := by
  induction fs with
  | nil => simp
  | cons a l ih =>
    have hl : ∀ (i j : Nat) (fi fj : Fetch), l[i]? = some fi → l[j]? = some fj →
        fi.isPending = true → fj.isPending = true → i = j := by
      intro i j fi fj hi hj pi pj
      have := h (i + 1) (j + 1) fi fj (by simpa using hi) (by simpa using hj) pi pj
      omega
    by_cases ha : a.isPending = true
    · have hzero : l.countP Fetch.isPending = 0 := by
        rw [List.countP_eq_zero]
        intro b hb hbp
        obtain ⟨j, hj⟩ := List.getElem?_of_mem hb
        have := h 0 (j + 1) a b (by simp) (by simpa using hj) ha hbp
        omega
      rw [List.countP_cons_of_pos _ _ ha, hzero]
    · rw [List.countP_cons_of_neg _ _ ha]
      exact ih hl

theorem isPending_iff (f : Fetch) : f.isPending = true ↔ f.promise = PromiseState.pending := by
  unfold Fetch.isPending
  cases f.promise <;> simp

/-- A run of calls that all find the cache unusable and a fetch in flight changes nothing and
hands every caller the promise of that fetch. -/
theorem callMany_join (cfg : Config) (nows : List Int) (st : State) (p : Nat)
    (hstale : ∀ n ∈ nows, cacheUsable st n = false) (hp : st.accessTokenPromise = some p) :
    callMany cfg nows st = (st, List.replicate nows.length (CallResult.promise p)) := by
  induction nows with
  | nil => rfl
  | cons n ns ih =>
    have hn := getAccessToken_join cfg n st p (hstale n (by simp)) hp
    have hns := ih (fun m hm => hstale m (by simp [hm]))
    simp [callMany, hn, hns, List.replicate_succ]

/-! ## The token cache: claims -/

/-- Deduplication while the marker is clear: in a state with `accessTokenPromise` `null` and
no usable cached token (none, or `now > refresh_time` at the time of either call), two
`getAccessToken` calls made before the token request settles issue exactly one request, a
POST to `/oauth/token`, and when that request succeeds both calls are fulfilled with the
`access_token` of its response. -/
theorem getAccessToken_deduplicates (cfg : Config) (st : State) (now1 now2 t : Int)
    (newToken : TokenResponse)
    (h1 : cacheUsable st now1 = false) (h2 : cacheUsable st now2 = false)
    (hidle : st.accessTokenPromise = none) :
    (getAccessToken cfg now2 (getAccessToken cfg now1 st).1).1.fetches =
        st.fetches ++ [{ options := tokenRequestOptions cfg, promise := PromiseState.pending }] ∧
      (tokenRequestOptions cfg).method = "POST" ∧
      (tokenRequestOptions cfg).uri = API_BASE_URL cfg ++ "/oauth/token" ∧
      ∃ s3, completeFetch st.fetches.length (.ok newToken) t
              (getAccessToken cfg now2 (getAccessToken cfg now1 st).1).1 = some s3 ∧
        settled s3 (getAccessToken cfg now1 st).2 = PromiseState.fulfilled newToken.access_token ∧
        settled s3 (getAccessToken cfg now2 (getAccessToken cfg now1 st).1).2 =
          PromiseState.fulfilled newToken.access_token := by
  have e1 := getAccessToken_start cfg now1 st h1 hidle
  have e2 : getAccessToken cfg now2 (startFetch cfg st) =
      (startFetch cfg st, CallResult.promise st.fetches.length) :=
    getAccessToken_join cfg now2 (startFetch cfg st) st.fetches.length
      (by rw [cacheUsable_startFetch]; exact h2) rfl
  rw [e1]
  simp only [e2]
  refine ⟨rfl, rfl, rfl, ?_⟩
  have hc := completeFetch_ok st.fetches.length newToken t (startFetch cfg st) _
    (getElem?_startFetch cfg st) rfl
  refine ⟨_, hc, ?_, ?_⟩ <;>
    simp [settled, startFetch]

theorem getAccessToken_deduplicates_witness :
    cacheUsable State.init 1000 = false ∧ cacheUsable State.init 1001 = false ∧
      (getAccessToken exampleConfig 1001 (getAccessToken exampleConfig 1000 State.init).1).1.fetches.length
        = 1 ∧
      (getAccessToken exampleConfig 1000 State.init).2 = CallResult.promise 0 ∧
      (getAccessToken exampleConfig 1001 (getAccessToken exampleConfig 1000 State.init).1).2
        = CallResult.promise 0 ∧
      ∃ s3, completeFetch 0 (.ok exampleResponse) 2000
              (getAccessToken exampleConfig 1001 (getAccessToken exampleConfig 1000 State.init).1).1
                = some s3 ∧
        settled s3 (getAccessToken exampleConfig 1000 State.init).2 = PromiseState.fulfilled "token-A" ∧
        settled s3 (getAccessToken exampleConfig 1001 (getAccessToken exampleConfig 1000 State.init).1).2
          = PromiseState.fulfilled "token-A" :=
  ⟨rfl, rfl, rfl, rfl, rfl,
    (getAccessToken_deduplicates exampleConfig State.init 1000 1001 2000 exampleResponse
      rfl rfl rfl).2.2.2⟩

/-- C3: with a cached token and `now <= token.refresh_time`, `getAccessToken` returns the cached
`access_token` and leaves the state, and so the list of issued requests, as it was; nothing is
assumed about `accessTokenPromise`. -/
theorem getAccessToken_cached (cfg : Config) (st : State) (tok : Token) (now : Int)
    (htok : st.token = some tok) (hfresh : now ≤ tok.refresh_time) :
    getAccessToken cfg now st = (st, CallResult.value tok.access_token) ∧
      (getAccessToken cfg now st).1.fetches = st.fetches ∧
      settled (getAccessToken cfg now st).1 (getAccessToken cfg now st).2 =
        PromiseState.fulfilled tok.access_token := by
  rw [getAccessToken_hit cfg now st tok htok hfresh]
  exact ⟨rfl, rfl, rfl⟩

theorem getAccessToken_cached_witness :
    exampleCached.token = some (withRefreshTime exampleResponse 2000) ∧
      (3542000 : Int) ≤ (withRefreshTime exampleResponse 2000).refresh_time ∧
      getAccessToken exampleConfig 3542000 exampleCached =
        (exampleCached, CallResult.value "token-A") :=
  ⟨rfl, by decide,
    (getAccessToken_cached exampleConfig exampleCached (withRefreshTime exampleResponse 2000)
      3542000 rfl (by decide)).1⟩

/-- Refresh while the marker is clear: with a cached token whose `refresh_time` has passed
and `accessTokenPromise` `null`, a `getAccessToken` call issues exactly one token request,
and when that request succeeds the call is fulfilled with the `access_token` of the new
response. -/
theorem getAccessToken_expired (cfg : Config) (st : State) (tok : Token) (now t : Int)
    (newToken : TokenResponse)
    (htok : st.token = some tok) (hexpired : tok.refresh_time < now)
    (hidle : st.accessTokenPromise = none) :
    (getAccessToken cfg now st).1.fetches =
        st.fetches ++ [{ options := tokenRequestOptions cfg, promise := PromiseState.pending }] ∧
      ∃ s2, completeFetch st.fetches.length (.ok newToken) t (getAccessToken cfg now st).1
              = some s2 ∧
        settled s2 (getAccessToken cfg now st).2 = PromiseState.fulfilled newToken.access_token := by
  have hstale : cacheUsable st now = false := by
    simp [cacheUsable, htok, hexpired]
  rw [getAccessToken_start cfg now st hstale hidle]
  refine ⟨rfl, ?_⟩
  have hc := completeFetch_ok st.fetches.length newToken t (startFetch cfg st) _
    (getElem?_startFetch cfg st) rfl
  refine ⟨_, hc, ?_⟩
  simp [settled, startFetch]

theorem getAccessToken_expired_witness :
    exampleCached.token = some (withRefreshTime exampleResponse 2000) ∧
      (withRefreshTime exampleResponse 2000).refresh_time < (3542001 : Int) ∧
      (getAccessToken exampleConfig 3542001 exampleCached).1.fetches.length = 2 ∧
      ∃ s2, completeFetch 1 (.ok exampleResponse2) 3543000
              (getAccessToken exampleConfig 3542001 exampleCached).1 = some s2 ∧
        settled s2 (getAccessToken exampleConfig 3542001 exampleCached).2
          = PromiseState.fulfilled "token-B" :=
  ⟨rfl, by decide, rfl,
    (getAccessToken_expired exampleConfig exampleCached (withRefreshTime exampleResponse 2000)
      3542001 3543000 exampleResponse2 rfl (by decide) rfl).2⟩

/-- C2, evaluated: the fetch started at time 1000 from the initial state fails at time 2000.
`accessTokenPromise` still refers to the rejected promise, and the call at time 3000 issues no
request (one fetch in all) and gets that rejected promise back. -/
theorem failed_fetch_is_not_cleared :
    ∃ s1, completeFetch 0 (.error "Request failed") 2000 exampleInFlight = some s1 ∧
      s1.accessTokenPromise = some 0 ∧
      getAccessToken exampleConfig 3000 s1 = (s1, CallResult.promise 0) ∧
      (getAccessToken exampleConfig 3000 s1).1.fetches.length = 1 ∧
      settled (getAccessToken exampleConfig 3000 s1).1 (getAccessToken exampleConfig 3000 s1).2
        = PromiseState.rejected "Request failed" :=
  ⟨_, rfl, rfl, rfl, rfl, rfl⟩

/-- C5: in every state reachable from the initial state by calls and completions, at most one
token request is outstanding; and if fetch `id` is outstanding, a call that finds no usable
cached token changes nothing (issues no request) and returns the promise of fetch `id`, which
settles as that fetch does: fulfilled with the `access_token` on success, rejected with the
reason on failure. -/
theorem at_most_one_outstanding (cfg : Config) (st : State) (hreach : Reachable cfg st) :
    outstanding st ≤ 1 ∧
      ∀ (id : Nat) (f : Fetch), st.fetches[id]? = some f → f.promise = PromiseState.pending →
        (∀ now, cacheUsable st now = false →
          getAccessToken cfg now st = (st, CallResult.promise id)) ∧
        (∀ (newToken : TokenResponse) (t : Int),
          ∃ s', completeFetch id (.ok newToken) t st = some s' ∧
            settled s' (CallResult.promise id) = PromiseState.fulfilled newToken.access_token) ∧
        (∀ (err : String) (t : Int),
          ∃ s', completeFetch id (.error err) t st = some s' ∧
            settled s' (CallResult.promise id) = PromiseState.rejected err) := by
  have inv := pending_is_marked cfg st hreach
  refine ⟨?_, ?_⟩
  · apply countP_isPending_le_one
    intro i j fi fj hi hj pi pj
    have ei := inv i fi hi ((isPending_iff fi).1 pi)
    have ej := inv j fj hj ((isPending_iff fj).1 pj)
    rw [ei] at ej
    exact Option.some.inj ej
  · intro id f hf hpend
    have hid : id < st.fetches.length := by
      by_contra hge
      rw [List.getElem?_eq_none (by omega)] at hf
      cases hf
    refine ⟨?_, ?_, ?_⟩
    · intro now hstale
      exact getAccessToken_join cfg now st id hstale (inv id f hf hpend)
    · intro newToken t
      exact ⟨_, completeFetch_ok id newToken t st f hf hpend,
        settled_set _ st.fetches id _ hid rfl⟩
    · intro err t
      exact ⟨_, completeFetch_error id err t st f hf hpend,
        settled_set _ st.fetches id _ hid rfl⟩

theorem at_most_one_outstanding_witness :
    Reachable exampleConfig exampleInFlight ∧ outstanding exampleInFlight ≤ 1 ∧
      getAccessToken exampleConfig 1500 exampleInFlight
        = (exampleInFlight, CallResult.promise 0) :=
  have hreach : Reachable exampleConfig exampleInFlight :=
    Reachable.step (Event.call 1000) Reachable.init rfl
  ⟨hreach, (at_most_one_outstanding exampleConfig exampleInFlight hreach).1,
    ((at_most_one_outstanding exampleConfig exampleInFlight hreach).2 0
      { options := tokenRequestOptions exampleConfig, promise := PromiseState.pending }
      rfl rfl).1 1500 rfl⟩

/-- C6: when the token request of fetch `id` succeeds at time `t` with `expires_in = e`, the
cached token has `refresh_time = t + (e - 60) * 1000`; and a later call at time `now` is
answered from the cache exactly when `now + 60000 <= t + e * 1000`. -/
theorem refresh_time_margin (cfg : Config) (id : Nat) (newToken : TokenResponse) (t : Int)
    (st s' : State) (hdone : completeFetch id (.ok newToken) t st = some s') :
    (∃ tok, s'.token = some tok ∧
        tok.refresh_time = t + (newToken.expires_in - 60) * 1000) ∧
      ∀ now : Int,
        getAccessToken cfg now s' = (s', CallResult.value newToken.access_token) ↔
          now + 60000 ≤ t + newToken.expires_in * 1000 := by
  obtain ⟨f, hf, hpend⟩ := completeFetch_some id (.ok newToken) t st s' hdone
  rw [completeFetch_ok id newToken t st f hf hpend] at hdone
  cases hdone
  refine ⟨⟨_, rfl, rfl⟩, ?_⟩
  intro now
  by_cases hfresh : now ≤ t + (newToken.expires_in - 60) * 1000
  · have hle : now + 60000 ≤ t + newToken.expires_in * 1000 := by omega
    simp [getAccessToken, withRefreshTime, hfresh, hle]
  · have hle : ¬ now + 60000 ≤ t + newToken.expires_in * 1000 := by omega
    simp [getAccessToken, withRefreshTime, hfresh, hle]

theorem refresh_time_margin_witness :
    completeFetch 0 (.ok exampleResponse) 2000 exampleInFlight = some exampleCached ∧
      (∃ tok, exampleCached.token = some tok ∧ tok.refresh_time = 2000 + (3600 - 60) * 1000) ∧
      (getAccessToken exampleConfig 3542000 exampleCached
          = (exampleCached, CallResult.value "token-A") ↔
        (3542000 : Int) + 60000 ≤ 2000 + 3600 * 1000) :=
  ⟨rfl,
    (refresh_time_margin exampleConfig 0 exampleResponse 2000 exampleInFlight exampleCached
      rfl).1,
    (refresh_time_margin exampleConfig 0 exampleResponse 2000 exampleInFlight exampleCached
      rfl).2 3542000⟩

/-- C7: a fetch is started by a call at time `now0` and joined by calls at the times `nows`
(each finding no usable cached token); if its token request then fails with reason `err`,
every one of these calls is rejected with `err`, and none is fulfilled with a value. -/
theorem fetch_failure_rejects_all (cfg : Config) (st : State) (now0 t : Int) (nows : List Int)
    (err : String)
    (h0 : cacheUsable st now0 = false) (hidle : st.accessTokenPromise = none)
    (hnows : ∀ n ∈ nows, cacheUsable st n = false) :
    (callMany cfg nows (getAccessToken cfg now0 st).1).2.length = nows.length ∧
      ∃ s', completeFetch st.fetches.length (.error err) t
              (callMany cfg nows (getAccessToken cfg now0 st).1).1 = some s' ∧
        ∀ r ∈ (getAccessToken cfg now0 st).2 ::
              (callMany cfg nows (getAccessToken cfg now0 st).1).2,
          settled s' r = PromiseState.rejected err ∧
            ∀ v, settled s' r ≠ PromiseState.fulfilled v := by
  rw [getAccessToken_start cfg now0 st h0 hidle]
  rw [callMany_join cfg nows (startFetch cfg st) st.fetches.length
    (fun n hn => by rw [cacheUsable_startFetch]; exact hnows n hn) rfl]
  refine ⟨by simp, ?_⟩
  have hc := completeFetch_error st.fetches.length err t (startFetch cfg st) _
    (getElem?_startFetch cfg st) rfl
  refine ⟨_, hc, ?_⟩
  intro r hr
  have hr' : r = CallResult.promise st.fetches.length := by
    simp only [List.mem_cons, List.mem_replicate] at hr
    rcases hr with h | ⟨_, h⟩ <;> exact h
  subst hr'
  have hs : settled
      { startFetch cfg st with
        fetches := (startFetch cfg st).fetches.set st.fetches.length
          { options := tokenRequestOptions cfg, promise := PromiseState.rejected err } }
      (CallResult.promise st.fetches.length) = PromiseState.rejected err := by
    simp [settled, startFetch]
  refine ⟨hs, ?_⟩
  intro v
  rw [hs]
  simp

theorem fetch_failure_rejects_all_witness :
    cacheUsable State.init 1000 = false ∧ State.init.accessTokenPromise = none ∧
      (∀ n ∈ [1001, 1002], cacheUsable State.init n = false) ∧
      (callMany exampleConfig [1001, 1002] (getAccessToken exampleConfig 1000 State.init).1).2
        = [CallResult.promise 0, CallResult.promise 0] ∧
      ∃ s', completeFetch 0 (.error "Request failed") 2000
              (callMany exampleConfig [1001, 1002]
                (getAccessToken exampleConfig 1000 State.init).1).1 = some s' ∧
        ∀ r ∈ (getAccessToken exampleConfig 1000 State.init).2 ::
              (callMany exampleConfig [1001, 1002]
                (getAccessToken exampleConfig 1000 State.init).1).2,
          settled s' r = PromiseState.rejected "Request failed" ∧
            ∀ v, settled s' r ≠ PromiseState.fulfilled v :=
  ⟨rfl, rfl, fun _ _ => rfl, rfl,
    (fetch_failure_rejects_all exampleConfig State.init 1000 2000 [1001, 1002] "Request failed"
      rfl rfl (fun _ _ => rfl)).2⟩

/-- C8: when the token request of fetch `id` succeeds with response `newToken` at time `t`, the
cached token is `newToken` with its `refresh_time`, `accessTokenPromise` is `null`, the promise
of fetch `id` is fulfilled with `newToken.access_token`, and the new cached token is the same
whatever token was cached before. -/
theorem success_replaces_token (id : Nat) (newToken : TokenResponse) (t : Int) (st s' : State)
    (hdone : completeFetch id (.ok newToken) t st = some s') :
    s'.token = some
        { access_token := newToken.access_token
          expires_in := newToken.expires_in
          rest := newToken.rest
          refresh_time := t + (newToken.expires_in - 60) * 1000 } ∧
      s'.accessTokenPromise = none ∧
      settled s' (CallResult.promise id) = PromiseState.fulfilled newToken.access_token ∧
      ∀ old : Option Token,
        completeFetch id (.ok newToken) t { st with token := old } = some s' := by
  obtain ⟨f, hf, hpend⟩ := completeFetch_some id (.ok newToken) t st s' hdone
  have hid : id < st.fetches.length := by
    by_contra hge
    rw [List.getElem?_eq_none (by omega)] at hf
    cases hf
  rw [completeFetch_ok id newToken t st f hf hpend] at hdone
  cases hdone
  refine ⟨rfl, rfl, settled_set _ st.fetches id _ hid rfl, ?_⟩
  intro old
  exact completeFetch_ok id newToken t { st with token := old } f hf hpend

theorem success_replaces_token_witness :
    ∃ s', completeFetch 1 (.ok exampleResponse2) 3543000
            (getAccessToken exampleConfig 3542001 exampleCached).1 = some s' ∧
      s'.token = some
        { access_token := "token-B", expires_in := 3600, rest := [("token_type", "Bearer")],
          refresh_time := 3543000 + (3600 - 60) * 1000 } ∧
      s'.accessTokenPromise = none ∧
      settled s' (CallResult.promise 1) = PromiseState.fulfilled "token-B" :=
  ⟨_, rfl,
    (success_replaces_token 1 exampleResponse2 3543000
      (getAccessToken exampleConfig 3542001 exampleCached).1 _ rfl).1,
    (success_replaces_token 1 exampleResponse2 3543000
      (getAccessToken exampleConfig 3542001 exampleCached).1 _ rfl).2.1,
    (success_replaces_token 1 exampleResponse2 3543000
      (getAccessToken exampleConfig 3542001 exampleCached).1 _ rfl).2.2.1⟩

/-- C9: a `getAccessToken` call leaves the cached token unchanged, a failed fetch leaves it
unchanged, and an event that changes it is the successful completion of a fetch. -/
theorem token_changed_only_by_success (cfg : Config) (st : State) :
    (∀ now, (getAccessToken cfg now st).1.token = st.token) ∧
      (∀ (id : Nat) (err : String) (t : Int) (s' : State),
        completeFetch id (.error err) t st = some s' → s'.token = st.token) ∧
      (∀ (ev : Event) (s' : State), step cfg st ev = some s' → s'.token ≠ st.token →
        ∃ id newToken t, ev = Event.complete id (.ok newToken) t) := by
  have hcall : ∀ now, (getAccessToken cfg now st).1.token = st.token := by
    intro now
    rcases getAccessToken_state cfg now st with h | ⟨_, h⟩ <;> rw [h]
    rfl
  have hfail : ∀ (id : Nat) (err : String) (t : Int) (s' : State),
      completeFetch id (.error err) t st = some s' → s'.token = st.token := by
    intro id err t s' h
    obtain ⟨f, hf, hpend⟩ := completeFetch_some id (.error err) t st s' h
    rw [completeFetch_error id err t st f hf hpend] at h
    cases h
    rfl
  refine ⟨hcall, hfail, ?_⟩
  intro ev s' hstep hne
  cases ev with
  | call now =>
    simp only [step, Option.some.injEq] at hstep
    exact absurd (hstep ▸ hcall now) hne
  | complete id outcome t =>
    cases outcome with
    | ok newToken => exact ⟨id, newToken, t, rfl⟩
    | error err => exact absurd (hfail id err t s' hstep) hne

theorem token_changed_only_by_success_witness :
    (getAccessToken exampleConfig 3542001 exampleCached).1.token = exampleCached.token ∧
      ∃ s', completeFetch 1 (.error "Request failed") 3543000
              (getAccessToken exampleConfig 3542001 exampleCached).1 = some s' ∧
        s'.token = exampleCached.token :=
  ⟨(token_changed_only_by_success exampleConfig exampleCached).1 3542001,
    _, rfl,
    (token_changed_only_by_success exampleConfig
      (getAccessToken exampleConfig 3542001 exampleCached).1).2.1 1 "Request failed" 3543000 _
      rfl⟩

/-! ## The inbound JWT gate: claims -/

/-- C10: if the token that `getJWT` takes from the request passes the verifying decode with
the client secret, and the claims read from it are an object with `context.cloudId = T`,
`context.resourceId = C` and `sub = U`, then `validateJWT` sets `res.locals.context` to
`{cloudId: T, conversationId: C, userId: U}`, calls `next` once and sends no status, when
`next` returns normally. -/
theorem validateJWT_attaches_context (lib : JwtUtil) (cfg : Config) (req : Request)
    (res : Response) (token : String) (verified T C U : Json)
    (claims contextFields : List (String × Json))
    (hjwt : getJWT lib req = .ok { encoded := token, decoded := Json.obj claims })
    (hverify : lib.decode token cfg.clientSecret = .ok verified)
    (hcontext : claims.lookup "context" = some (Json.obj contextFields))
    (hT : contextFields.lookup "cloudId" = some T)
    (hC : contextFields.lookup "resourceId" = some C)
    (hU : claims.lookup "sub" = some U) :
    validateJWT lib cfg req (.ok ()) res =
      { context := some { cloudId := some T, conversationId := some C, userId := some U }
        status := res.status
        nextCalls := res.nextCalls + 1 } := by
  simp [validateJWT, validateJWT.readContext, hjwt, hverify, getProp, hcontext, hT, hC, hU]

theorem validateJWT_attaches_context_witness :
    validateJWT exampleJwtUtil exampleConfig { queryJwt := some "aaa.bbb.ccc" } (.ok ()) {} =
        { context := some { cloudId := some (Json.str "T1"),
                            conversationId := some (Json.str "C1"),
                            userId := some (Json.str "U1") }
          status := none
          nextCalls := 1 } ∧
      validateJWT exampleJwtUtil exampleConfig { authorization := some "Bearer aaa.bbb.ccc" }
          (.ok ()) {} =
        { context := some { cloudId := some (Json.str "T1"),
                            conversationId := some (Json.str "C1"),
                            userId := some (Json.str "U1") }
          status := none
          nextCalls := 1 } :=
  ⟨validateJWT_attaches_context exampleJwtUtil exampleConfig { queryJwt := some "aaa.bbb.ccc" }
      {} "aaa.bbb.ccc" examplePayload (Json.str "T1") (Json.str "C1") (Json.str "U1")
      _ _ rfl rfl rfl rfl rfl rfl,
    validateJWT_attaches_context exampleJwtUtil exampleConfig
      { authorization := some "Bearer aaa.bbb.ccc" }
      {} "aaa.bbb.ccc" examplePayload (Json.str "T1") (Json.str "C1") (Json.str "U1")
      _ _ rfl rfl rfl rfl rfl rfl⟩

/-! ## Lemmas on the JWT gate -/

theorem substring_bearer (t : String) : substring ("Bearer " ++ t) 7 = t := by
  simp [substring, String.data_append]

theorem startsWith_bearer (t : String) : startsWith ("Bearer " ++ t) "Bearer" = true := by
  simp [startsWith, String.data_append, List.isPrefixOf]

theorem validateJWT_of_error (lib : JwtUtil) (cfg : Config) (req : Request)
    (next : Except String Unit) (res : Response) (e : String)
    (h : validateJWT.readContext lib cfg req = .error e) :
    validateJWT lib cfg req next res = res.sendStatus 403 := by
  simp [validateJWT, h]

theorem readContext_of_extraction_error (lib : JwtUtil) (cfg : Config) (req : Request)
    (e : String) (h : getJWT.encodedJwt req = .error e) :
    validateJWT.readContext lib cfg req = .error e := by
  simp [validateJWT.readContext, getJWT, h]

theorem readContext_of_verify_error (lib : JwtUtil) (cfg : Config) (req : Request)
    (token e : String) (htoken : getJWT.encodedJwt req = .ok token)
    (hfail : lib.decode token cfg.clientSecret = .error e) :
    ∃ e', validateJWT.readContext lib cfg req = .error e' := by
  cases hd : lib.decodeNoVerify token with
  | error e1 => exact ⟨e1, by simp [validateJWT.readContext, getJWT, htoken, hd]⟩
  | ok decoded => exact ⟨e, by simp [validateJWT.readContext, getJWT, htoken, hd, hfail]⟩

/-- With a coherent library the `try` block and the specification's reading of the verified
payload succeed together, with the same context. -/
theorem readContext_cases (lib : JwtUtil) (hcoh : lib.Coherent) (cfg : Config) (req : Request) :
    (∃ e e', validateJWT.readContext lib cfg req = .error e ∧
        validateJWT.contextOfVerified lib cfg req = .error e') ∨
      (∃ ctx token payload, validateJWT.readContext lib cfg req = .ok ctx ∧
        validateJWT.contextOfVerified lib cfg req = .ok ctx ∧
        getJWT.encodedJwt req = .ok token ∧
        lib.decode token cfg.clientSecret = .ok payload ∧
        contextOfClaims payload = .ok ctx) := by
  cases htoken : getJWT.encodedJwt req with
  | error e =>
    exact Or.inl ⟨e, e, readContext_of_extraction_error lib cfg req e htoken,
      by simp [validateJWT.contextOfVerified, htoken]⟩
  | ok token =>
    cases hdec : lib.decode token cfg.clientSecret with
    | error e =>
      obtain ⟨e', he'⟩ := readContext_of_verify_error lib cfg req token e htoken hdec
      exact Or.inl ⟨e', e, he', by simp [validateJWT.contextOfVerified, htoken, hdec]⟩
    | ok payload =>
      have hno := hcoh token cfg.clientSecret payload hdec
      have h1 : validateJWT.readContext lib cfg req = contextOfClaims payload := by
        simp only [validateJWT.readContext, getJWT, htoken, hno, hdec, contextOfClaims]
      have h2 : validateJWT.contextOfVerified lib cfg req = contextOfClaims payload := by
        simp only [validateJWT.contextOfVerified, htoken, hdec]
      cases hc : contextOfClaims payload with
      | error e => exact Or.inl ⟨e, e, by rw [h1, hc], by rw [h2, hc]⟩
      | ok ctx =>
        exact Or.inr ⟨ctx, token, payload, by rw [h1, hc], by rw [h2, hc], rfl, hdec, hc⟩

theorem contextOfVerified_congr (lib lib2 : JwtUtil) (cfg : Config) (req : Request)
    (h : lib2.decode = lib.decode) :
    validateJWT.contextOfVerified lib2 cfg req = validateJWT.contextOfVerified lib cfg req := by
  simp only [validateJWT.contextOfVerified, h]

theorem exampleJwtUtil_coherent : exampleJwtUtil.Coherent := by
  intro token key payload h
  by_cases ht : token = "aaa.bbb.ccc"
  · by_cases hk : key = "client-secret"
    · simp [exampleJwtUtil, ht, hk] at h ⊢
      exact h
    · simp [exampleJwtUtil, ht, hk] at h
  · simp [exampleJwtUtil, ht] at h

/-! ## The inbound JWT gate: further claims -/

/-- C11: if the token that `getJWT` extracts fails the verifying decode with the client secret
(whatever the reason), `validateJWT` answers with status 403 and does not call `next`. -/
theorem validateJWT_rejects_unverified (lib : JwtUtil) (cfg : Config) (req : Request)
    (next : Except String Unit) (res : Response) (token err : String)
    (htoken : getJWT.encodedJwt req = .ok token)
    (hfail : lib.decode token cfg.clientSecret = .error err) :
    validateJWT lib cfg req next res = res.sendStatus 403 ∧
      (validateJWT lib cfg req next res).status = some 403 ∧
      (validateJWT lib cfg req next res).nextCalls = res.nextCalls := by
  obtain ⟨e', he'⟩ := readContext_of_verify_error lib cfg req token err htoken hfail
  rw [validateJWT_of_error lib cfg req next res e' he']
  exact ⟨rfl, rfl, rfl⟩

theorem validateJWT_rejects_unverified_witness :
    getJWT.encodedJwt { queryJwt := some "aaa.bbb.ccc" } = .ok "aaa.bbb.ccc" ∧
      exampleJwtUtil.decode "aaa.bbb.ccc" exampleOtherConfig.clientSecret
        = .error "Signature verification failed" ∧
      (validateJWT exampleJwtUtil exampleOtherConfig { queryJwt := some "aaa.bbb.ccc" }
        (.ok ()) {}).status = some 403 ∧
      (validateJWT exampleJwtUtil exampleOtherConfig { queryJwt := some "aaa.bbb.ccc" }
        (.ok ()) {}).nextCalls = 0 :=
  ⟨rfl, rfl,
    (validateJWT_rejects_unverified exampleJwtUtil exampleOtherConfig
      { queryJwt := some "aaa.bbb.ccc" } (.ok ()) {} "aaa.bbb.ccc"
      "Signature verification failed" rfl rfl).2⟩

/-- C12: a request with no `jwt` query parameter and no `authorization` header makes `getJWT`
throw, and `validateJWT` answers with status 403 without calling `next`. -/
theorem validateJWT_rejects_missing_token (lib : JwtUtil) (cfg : Config) (req : Request)
    (next : Except String Unit) (res : Response)
    (hquery : req.queryJwt = none) (hheader : req.authorization = none) :
    (∃ e, getJWT lib req = .error e) ∧
      validateJWT lib cfg req next res = res.sendStatus 403 ∧
      (validateJWT lib cfg req next res).status = some 403 ∧
      (validateJWT lib cfg req next res).nextCalls = res.nextCalls := by
  have hext : getJWT.encodedJwt req =
      .error "TypeError: cannot read property substring of undefined" := by
    simp [getJWT.encodedJwt, getJWT.firstChoice, hquery, hheader]
  have hctx := readContext_of_extraction_error lib cfg req _ hext
  rw [validateJWT_of_error lib cfg req next res _ hctx]
  have hjwt : getJWT lib req =
      .error "TypeError: cannot read property substring of undefined" := by
    simp [getJWT, hext]
  exact ⟨⟨_, hjwt⟩, rfl, rfl, rfl⟩

theorem validateJWT_rejects_missing_token_witness :
    (∃ e, getJWT exampleJwtUtil {} = .error e) ∧
      validateJWT exampleJwtUtil exampleConfig {} (.ok ()) {} = { status := some 403 } :=
  ⟨(validateJWT_rejects_missing_token exampleJwtUtil exampleConfig {} (.ok ()) {} rfl rfl).1,
    (validateJWT_rejects_missing_token exampleJwtUtil exampleConfig {} (.ok ()) {} rfl rfl).2.1⟩

/-- C13, as stated, fails: with `jwt=aaa.bbb.ccc` in the query and the header
`authorization: Basic abc`, lines 625-627 replace the query value by the whole header, and the
request is answered with 403 although the query token is the valid one. -/
theorem getJWT_query_overridden :
    getJWT.encodedJwt { queryJwt := some "aaa.bbb.ccc", authorization := some "Basic abc" }
        = .ok "Basic abc" ∧
      "Basic abc" ≠ "aaa.bbb.ccc" ∧
      validateJWT exampleJwtUtil exampleConfig
          { queryJwt := some "aaa.bbb.ccc", authorization := some "Basic abc" } (.ok ()) {}
        = { status := some 403 } :=
  ⟨rfl, by decide, rfl⟩

/-- C13, amended: for a request whose `jwt` query parameter is a non-empty string `q`, `getJWT`
settles on `q` when the `authorization` header is absent, empty or starts with `Bearer`; when
that header is non-empty and does not start with `Bearer`, it settles on the whole header
value. -/
theorem getJWT_prefers_query (req : Request) (q : String)
    (hq : req.queryJwt = some q) (hne : q ≠ "") :
    ((∀ a, req.authorization = some a → a = "" ∨ startsWith a "Bearer" = true) →
        getJWT.encodedJwt req = .ok q) ∧
      (∀ a, req.authorization = some a → a ≠ "" → startsWith a "Bearer" = false →
        getJWT.encodedJwt req = .ok a) := by
  have hfirst : getJWT.firstChoice req = .ok q := by
    simp [getJWT.firstChoice, hq, hne]
  refine ⟨?_, ?_⟩
  · intro hheader
    cases ha : req.authorization with
    | none => simp [getJWT.encodedJwt, hfirst, ha, hne]
    | some a =>
      rcases hheader a ha with h | h
      · simp [getJWT.encodedJwt, hfirst, ha, h, hne]
      · simp [getJWT.encodedJwt, hfirst, ha, h, hne]
  · intro a ha hane hnb
    simp [getJWT.encodedJwt, hfirst, ha, hane, hnb]

theorem getJWT_prefers_query_witness :
    getJWT.encodedJwt
        { queryJwt := some "aaa.bbb.ccc", authorization := some "Bearer xxx.yyy.zzz" }
        = .ok "aaa.bbb.ccc" ∧
      getJWT.encodedJwt { queryJwt := some "aaa.bbb.ccc", authorization := some "Basic abc" }
        = .ok "Basic abc" :=
  ⟨(getJWT_prefers_query
      { queryJwt := some "aaa.bbb.ccc", authorization := some "Bearer xxx.yyy.zzz" }
      "aaa.bbb.ccc" rfl (by decide)).1
      (fun a ha => Or.inr (by cases ha; rfl)),
    (getJWT_prefers_query
      { queryJwt := some "aaa.bbb.ccc", authorization := some "Basic abc" }
      "aaa.bbb.ccc" rfl (by decide)).2 "Basic abc" rfl (by decide) rfl⟩

/-- C14: with no `jwt` query parameter and the header `authorization` equal to `Bearer `
followed by a non-empty string `t`, `getJWT` settles on exactly `t`, and returns it as
`encoded` whenever the unverified decode of `t` succeeds. -/
theorem getJWT_strips_bearer (req : Request) (t : String)
    (hquery : req.queryJwt = none) (hheader : req.authorization = some ("Bearer " ++ t))
    (ht : t ≠ "") :
    getJWT.encodedJwt req = .ok t ∧
      ∀ (lib : JwtUtil) (decoded : Json), lib.decodeNoVerify t = .ok decoded →
        getJWT lib req = .ok { encoded := t, decoded := decoded } := by
  have hfirst : getJWT.firstChoice req = .ok t := by
    simp [getJWT.firstChoice, hquery, hheader, substring_bearer, ht]
  have henc : getJWT.encodedJwt req = .ok t := by
    simp [getJWT.encodedJwt, hfirst, hheader, startsWith_bearer, ht]
  refine ⟨henc, ?_⟩
  intro lib decoded hd
  simp [getJWT, henc, hd]

theorem getJWT_strips_bearer_witness :
    getJWT.encodedJwt { authorization := some "Bearer aaa.bbb.ccc" } = .ok "aaa.bbb.ccc" ∧
      getJWT exampleJwtUtil { authorization := some "Bearer aaa.bbb.ccc" }
        = .ok { encoded := "aaa.bbb.ccc", decoded := examplePayload } :=
  ⟨(getJWT_strips_bearer { authorization := some "Bearer aaa.bbb.ccc" } "aaa.bbb.ccc"
      rfl rfl (by decide)).1,
    (getJWT_strips_bearer { authorization := some "Bearer aaa.bbb.ccc" } "aaa.bbb.ccc"
      rfl rfl (by decide)).2 exampleJwtUtil examplePayload rfl⟩

/-- C15, as stated, fails: a request that carries `Bearer aaa.bbb.ccc` only under the key
`Authorization` makes `getJWT` throw at `req.headers['authorization'].substring(7)`, before the
capitalized key is read, and is answered with 403; the same value under `authorization` is
extracted and accepted. -/
theorem getJWT_capitalized_header_throws :
    getJWT.encodedJwt { Authorization := some "Bearer aaa.bbb.ccc" }
        = .error "TypeError: cannot read property substring of undefined" ∧
      validateJWT exampleJwtUtil exampleConfig { Authorization := some "Bearer aaa.bbb.ccc" }
        (.ok ()) {} = { status := some 403 } ∧
      getJWT.encodedJwt { authorization := some "Bearer aaa.bbb.ccc" } = .ok "aaa.bbb.ccc" ∧
      (validateJWT exampleJwtUtil exampleConfig { authorization := some "Bearer aaa.bbb.ccc" }
        (.ok ()) {}).nextCalls = 1 :=
  ⟨rfl, rfl, rfl, rfl⟩

/-- C15, amended: with no `jwt` query parameter, a request without the key `authorization`
makes `getJWT` throw whatever it carries under `Authorization`, and `validateJWT` answers 403
without calling `next`.  The key `Authorization` is read only when `authorization` is present
and nothing follows its first seven characters; if that header is empty or starts with
`Bearer`, the token is then what follows the first seven characters of the `Authorization`
value, so `t` for `Bearer ` followed by a non-empty `t`. -/
theorem getJWT_capitalized_header_fallback (req : Request) (hquery : req.queryJwt = none) :
    (req.authorization = none →
        (∃ e, getJWT.encodedJwt req = .error e) ∧
        ∀ (lib : JwtUtil) (cfg : Config) (next : Except String Unit) (res : Response),
          validateJWT lib cfg req next res = res.sendStatus 403 ∧
          (validateJWT lib cfg req next res).nextCalls = res.nextCalls) ∧
      (∀ a t : String, req.authorization = some a → substring a 7 = "" →
        (a = "" ∨ startsWith a "Bearer" = true) →
        req.Authorization = some ("Bearer " ++ t) → t ≠ "" →
        getJWT.encodedJwt req = .ok t) ∧
      (∀ a : String, req.authorization = some a → substring a 7 ≠ "" →
        ∀ b : Option String,
          getJWT.encodedJwt { req with Authorization := b } = getJWT.encodedJwt req) := by
  refine ⟨?_, ?_, ?_⟩
  · intro hheader
    have hext : getJWT.encodedJwt req =
        .error "TypeError: cannot read property substring of undefined" := by
      simp [getJWT.encodedJwt, getJWT.firstChoice, hquery, hheader]
    refine ⟨⟨_, hext⟩, ?_⟩
    intro lib cfg next res
    rw [validateJWT_of_error lib cfg req next res _
      (readContext_of_extraction_error lib cfg req _ hext)]
    exact ⟨rfl, rfl⟩
  · intro a t ha hsub hbearer hcap ht
    have hfirst : getJWT.firstChoice req = .ok t := by
      simp [getJWT.firstChoice, hquery, ha, hsub, hcap, substring_bearer]
    rcases hbearer with h | h
    · simp [getJWT.encodedJwt, hfirst, ha, h, ht]
    · simp [getJWT.encodedJwt, hfirst, ha, h, ht]
  · intro a ha hsub b
    simp [getJWT.encodedJwt, getJWT.firstChoice, hquery, ha, hsub]

theorem getJWT_capitalized_header_fallback_witness :
    (∃ e, getJWT.encodedJwt { Authorization := some "Bearer aaa.bbb.ccc" } = .error e) ∧
      getJWT.encodedJwt
          { authorization := some "Bearer ", Authorization := some "Bearer aaa.bbb.ccc" }
        = .ok "aaa.bbb.ccc" :=
  ⟨((getJWT_capitalized_header_fallback { Authorization := some "Bearer aaa.bbb.ccc" } rfl).1
      rfl).1,
    (getJWT_capitalized_header_fallback
      { authorization := some "Bearer ", Authorization := some "Bearer aaa.bbb.ccc" } rfl).2.1
      "Bearer " "aaa.bbb.ccc" rfl (by decide) (Or.inr (by decide)) rfl (by decide)⟩

theorem readContext_of_verified (lib : JwtUtil) (cfg : Config) (req : Request) (jwt : Jwt)
    (verified : Json) (hjwt : getJWT lib req = .ok jwt)
    (hverify : lib.decode jwt.encoded cfg.clientSecret = .ok verified) :
    validateJWT.readContext lib cfg req = contextOfClaims jwt.decoded := by
  simp only [validateJWT.readContext, hjwt, hverify, contextOfClaims]

/-- When the `try` block gets as far as the context, the token was extracted, both decodes
succeeded and the context was read from the payload of the unverified one. -/
theorem readContext_ok (lib : JwtUtil) (cfg : Config) (req : Request) (ctx : Context)
    (h : validateJWT.readContext lib cfg req = .ok ctx) :
    ∃ token payload verified, getJWT.encodedJwt req = .ok token ∧
      lib.decodeNoVerify token = .ok payload ∧
      lib.decode token cfg.clientSecret = .ok verified ∧
      contextOfClaims payload = .ok ctx := by
  cases htoken : getJWT.encodedJwt req with
  | error e => simp [validateJWT.readContext, getJWT, htoken] at h
  | ok token =>
    cases hno : lib.decodeNoVerify token with
    | error e => simp [validateJWT.readContext, getJWT, htoken, hno] at h
    | ok payload =>
      cases hdec : lib.decode token cfg.clientSecret with
      | error e => simp [validateJWT.readContext, getJWT, htoken, hno, hdec] at h
      | ok verified =>
        have hjwt : getJWT lib req = .ok { encoded := token, decoded := payload } := by
          simp [getJWT, htoken, hno]
        rw [readContext_of_verified lib cfg req _ verified hjwt hdec] at h
        exact ⟨token, payload, verified, rfl, hno, hdec, h⟩

/-- The reads behind a context that `contextOfClaims` returns. -/
theorem contextOfClaims_reads (payload : Json) (ctx : Context)
    (h : contextOfClaims payload = .ok ctx) :
    ∃ context, getProp (some payload) "context" = .ok context ∧
      getProp context "cloudId" = .ok ctx.cloudId ∧
      getProp context "resourceId" = .ok ctx.conversationId ∧
      getProp (some payload) "sub" = .ok ctx.userId := by
  unfold contextOfClaims at h
  cases h1 : getProp (some payload) "context" with
  | error e => simp [h1] at h
  | ok context =>
    cases h2 : getProp context "resourceId" with
    | error e => simp [h1, h2] at h
    | ok conversationId =>
      cases h3 : getProp context "cloudId" with
      | error e => simp [h1, h2, h3] at h
      | ok cloudId =>
        cases h4 : getProp (some payload) "sub" with
        | error e => simp [h1, h2, h3, h4] at h
        | ok userId =>
          simp only [h1, h2, h3, h4, Except.ok.injEq] at h
          subst h
          exact ⟨context, rfl, h3, h2, rfl⟩

/-- The result of `validateJWT` depends on the `try` block only through its success and the
context it read. -/
theorem validateJWT_congr (lib lib2 : JwtUtil) (cfg : Config) (req : Request)
    (next : Except String Unit) (res : Response)
    (h : (validateJWT.readContext lib2 cfg req).toOption
      = (validateJWT.readContext lib cfg req).toOption) :
    validateJWT lib2 cfg req next res = validateJWT lib cfg req next res := by
  unfold validateJWT
  cases h1 : validateJWT.readContext lib cfg req with
  | error e =>
    cases h2 : validateJWT.readContext lib2 cfg req with
    | error e2 => rfl
    | ok c2 => simp [h1, h2, Except.toOption] at h
  | ok c =>
    cases h2 : validateJWT.readContext lib2 cfg req with
    | error e2 => simp [h1, h2, Except.toOption] at h
    | ok c2 =>
      simp only [h1, h2, Except.toOption, Option.some.injEq] at h
      subst h
      rfl

/-- C16, as stated, fails: for the token `aaa.bbb.ccc` the verifying decode returns the claims
of tenant `T1`, conversation `C1`, user `U1`, and the unverified decode returns those of
`T2`, `C2`, `U2`.  `validateJWT` calls `next` with the context `T2`, `C2`, `U2`, which is not
that of the verified payload; with the same verifying decode and another unverified decode
(`exampleJwtUtil`) the attached context is `T1`, `C1`, `U1`. -/
theorem validateJWT_attaches_unverified_claims :
    exampleSplitJwtUtil.decode "aaa.bbb.ccc" exampleConfig.clientSecret
        = .ok (Json.obj
            [ ("iss", Json.str "client-id"),
              ("sub", Json.str "U1"),
              ("context", Json.obj
                [("cloudId", Json.str "T1"), ("resourceId", Json.str "C1")]) ]) ∧
      exampleSplitJwtUtil.decode = exampleJwtUtil.decode ∧
      validateJWT exampleSplitJwtUtil exampleConfig { queryJwt := some "aaa.bbb.ccc" } (.ok ()) {}
        = { context := some { cloudId := some (Json.str "T2"),
                              conversationId := some (Json.str "C2"),
                              userId := some (Json.str "U2") }
            status := none
            nextCalls := 1 } ∧
      validateJWT exampleJwtUtil exampleConfig { queryJwt := some "aaa.bbb.ccc" } (.ok ()) {}
        = { context := some { cloudId := some (Json.str "T1"),
                              conversationId := some (Json.str "C1"),
                              userId := some (Json.str "U1") }
            status := none
            nextCalls := 1 } ∧
      Json.str "T2" ≠ Json.str "T1" :=
  ⟨rfl, rfl, rfl, rfl, by simp⟩

/-- C16, amended: whenever `validateJWT` calls `next`, the extracted token has passed the
verifying decode with the client secret, and the attached `cloudId`, `conversationId` and
`userId` are `context.cloudId`, `context.resourceId` and `sub` of `jwt.decoded`, the payload
that the unverified decode of that token returns; these are the claims of the verified
payload when the library returns one payload from both decodes.  The payload returned by the
verifying decode is not used: two libraries with the same unverified decode whose verifying
decodes succeed on the same tokens give the same result. -/
theorem validateJWT_reads_decoded_claims (lib : JwtUtil) (cfg : Config) (req : Request)
    (next : Except String Unit) (res : Response) :
    ((validateJWT lib cfg req next res).nextCalls ≠ res.nextCalls →
        ∃ token payload verified ctx context,
          getJWT.encodedJwt req = .ok token ∧
          lib.decode token cfg.clientSecret = .ok verified ∧
          lib.decodeNoVerify token = .ok payload ∧
          (validateJWT lib cfg req next res).context = some ctx ∧
          getProp (some payload) "context" = .ok context ∧
          getProp context "cloudId" = .ok ctx.cloudId ∧
          getProp context "resourceId" = .ok ctx.conversationId ∧
          getProp (some payload) "sub" = .ok ctx.userId ∧
          (lib.Coherent → verified = payload)) ∧
      (∀ lib2 : JwtUtil, lib2.decodeNoVerify = lib.decodeNoVerify →
        (∀ token, (lib2.decode token cfg.clientSecret).toOption.isSome
          = (lib.decode token cfg.clientSecret).toOption.isSome) →
        validateJWT lib2 cfg req next res = validateJWT lib cfg req next res) := by
  refine ⟨?_, ?_⟩
  · intro hcalled
    cases hr : validateJWT.readContext lib cfg req with
    | error e =>
      rw [validateJWT_of_error lib cfg req next res e hr] at hcalled
      exact absurd rfl hcalled
    | ok ctx =>
      obtain ⟨token, payload, verified, ht, hno, hdec, hc⟩ := readContext_ok lib cfg req ctx hr
      obtain ⟨context, h1, h2, h3, h4⟩ := contextOfClaims_reads payload ctx hc
      refine ⟨token, payload, verified, ctx, context, ht, hdec, hno, ?_, h1, h2, h3, h4, ?_⟩
      · cases next <;> simp [validateJWT, hr, Response.sendStatus]
      · intro hcoh
        have := hcoh token cfg.clientSecret verified hdec
        rw [hno] at this
        cases this
        rfl
  · intro lib2 hno hsame
    apply validateJWT_congr
    cases htoken : getJWT.encodedJwt req with
    | error e => simp [validateJWT.readContext, getJWT, htoken]
    | ok token =>
      cases hd : lib.decodeNoVerify token with
      | error e => simp [validateJWT.readContext, getJWT, htoken, hno, hd]
      | ok payload =>
        have hs := hsame token
        cases hdec : lib.decode token cfg.clientSecret with
        | error e =>
          cases hdec2 : lib2.decode token cfg.clientSecret with
          | error e2 =>
            simp [validateJWT.readContext, getJWT, htoken, hno, hd, hdec, hdec2, Except.toOption]
          | ok v2 => simp [hdec, hdec2, Except.toOption] at hs
        | ok v =>
          cases hdec2 : lib2.decode token cfg.clientSecret with
          | error e2 => simp [hdec, hdec2, Except.toOption] at hs
          | ok v2 =>
            simp [validateJWT.readContext, getJWT, htoken, hno, hd, hdec, hdec2]

theorem validateJWT_reads_decoded_claims_witness :
    (validateJWT exampleSplitJwtUtil exampleConfig { queryJwt := some "aaa.bbb.ccc" }
        (.ok ()) {}).nextCalls ≠ 0 ∧
      ∃ token payload verified ctx context,
        getJWT.encodedJwt { queryJwt := some "aaa.bbb.ccc" } = .ok token ∧
        exampleSplitJwtUtil.decode token exampleConfig.clientSecret = .ok verified ∧
        exampleSplitJwtUtil.decodeNoVerify token = .ok payload ∧
        (validateJWT exampleSplitJwtUtil exampleConfig { queryJwt := some "aaa.bbb.ccc" }
          (.ok ()) {}).context = some ctx ∧
        getProp (some payload) "context" = .ok context ∧
        getProp context "cloudId" = .ok ctx.cloudId ∧
        getProp context "resourceId" = .ok ctx.conversationId ∧
        getProp (some payload) "sub" = .ok ctx.userId ∧
        (exampleSplitJwtUtil.Coherent → verified = payload) :=
  ⟨by decide,
    (validateJWT_reads_decoded_claims exampleSplitJwtUtil exampleConfig
      { queryJwt := some "aaa.bbb.ccc" } (.ok ()) {}).1 (by decide)⟩

/-! ## The HTTP wrapper and the API functions: claims -/

/-- C17, as stated, fails: a response with status 302 and no error is not a 2xx response, yet
`r2` resolves with its body, since line 30 rejects only for a status of 399 or more; and for
the request of `sendMedia`, whose options hold a stream, a network error reported by the
client leaves the promise unsettled, since rendering the log details throws before `reject`
is reached. -/
theorem r2_resolves_redirect :
    r2 examplePrettify exampleRedirectClient (tokenRequestOptions exampleConfig)
        = ([tokenRequestOptions exampleConfig], Settlement.resolved "moved") ∧
      (∃ build, sendMedia exampleConfig (some "T1") (some "C1") (some "cat.png")
          (some "stream-1") = .ok build ∧ build "token-A" = exampleMediaOptions) ∧
      r2 examplePrettify exampleErrorClient exampleMediaOptions
        = ([exampleMediaOptions],
            Settlement.thrown "RangeError: Maximum call stack size exceeded") :=
  ⟨rfl, ⟨_, rfl, rfl⟩, rfl⟩

/-- C17, amended: `r2` hands exactly one request to the HTTP client, whatever the reply.  When
the client reports an error, or reports none and the status is 399 or more, the log details
are rendered first: if `prettify_json` returns, the promise is rejected (with the error of
the client, or with `Request failed`); if it throws, the callback throws and the promise is
not settled.  With neither error nor response the callback throws.  With no error and a
status below 399 the promise is resolved with the body, and it is resolved in no other
case. -/
theorem r2_settlement {β : Type} (prettify_json : LogDetails β → Except String String)
    (client : RequestOptions → Reply β) (options : RequestOptions) :
    (r2 prettify_json client options).1 = [options] ∧
      (∀ err, (client options).err = some err →
        (∀ text, prettify_json { request := options, err := some err, responseBody := none }
            = .ok text →
          (r2 prettify_json client options).2 = Settlement.rejected err) ∧
        (∀ thrown, prettify_json { request := options, err := some err, responseBody := none }
            = .error thrown →
          (r2 prettify_json client options).2 = Settlement.thrown thrown)) ∧
      ((client options).err = none → (client options).response = none →
        ∃ thrown, (r2 prettify_json client options).2 = Settlement.thrown thrown) ∧
      (∀ response, (client options).err = none → (client options).response = some response →
        399 ≤ response.statusCode →
        (∀ text, prettify_json
            { request := options, err := none, responseBody := some response.body } = .ok text →
          (r2 prettify_json client options).2 = Settlement.rejected "Request failed") ∧
        (∀ thrown, prettify_json
            { request := options, err := none, responseBody := some response.body }
              = .error thrown →
          (r2 prettify_json client options).2 = Settlement.thrown thrown)) ∧
      (∀ response, (client options).err = none → (client options).response = some response →
        response.statusCode < 399 →
        (r2 prettify_json client options).2 = Settlement.resolved (client options).body) ∧
      (∀ body, (r2 prettify_json client options).2 = Settlement.resolved body →
        (client options).err = none ∧ body = (client options).body ∧
        ∃ response, (client options).response = some response ∧
          response.statusCode < 399) := by
  refine ⟨rfl, ?_, ?_, ?_, ?_, ?_⟩
  · intro err herr
    refine ⟨?_, ?_⟩
    · intro text htext
      simp [r2, r2.callback, herr, htext]
    · intro thrown hthrown
      simp [r2, r2.callback, herr, hthrown]
  · intro herr hresp
    exact ⟨_, by simp [r2, r2.callback, herr, hresp]; rfl⟩
  · intro response herr hresp hstatus
    have h399 : response.statusCode ≥ 399 := hstatus
    refine ⟨?_, ?_⟩
    · intro text htext
      simp [r2, r2.callback, herr, hresp, h399, htext]
    · intro thrown hthrown
      simp [r2, r2.callback, herr, hresp, h399, hthrown]
  · intro response herr hresp hstatus
    have h399 : ¬ response.statusCode ≥ 399 := by omega
    simp [r2, r2.callback, herr, hresp, h399]
  · intro body hres
    simp only [r2, r2.callback] at hres
    cases herr : (client options).err with
    | some err =>
      rw [herr] at hres
      simp only at hres
      split at hres <;> cases hres
    | none =>
      cases hresp : (client options).response with
      | none =>
        rw [herr, hresp] at hres
        cases hres
      | some response =>
        rw [herr, hresp] at hres
        by_cases h399 : response.statusCode ≥ 399
        · simp only [h399, if_true] at hres
          split at hres <;> cases hres
        · simp only [h399, if_false] at hres
          cases hres
          exact ⟨rfl, rfl, response, rfl, by omega⟩

theorem r2_settlement_witness :
    (r2 examplePrettify exampleOkClient (tokenRequestOptions exampleConfig)).1
        = [tokenRequestOptions exampleConfig] ∧
      (r2 examplePrettify exampleOkClient (tokenRequestOptions exampleConfig)).2
        = Settlement.resolved "done" ∧
      (r2 examplePrettify exampleStatus399Client (tokenRequestOptions exampleConfig)).2
        = Settlement.rejected "Request failed" ∧
      (r2 examplePrettify exampleErrorClient (tokenRequestOptions exampleConfig)).2
        = Settlement.rejected "ECONNRESET" ∧
      (r2 examplePrettify exampleErrorClient exampleMediaOptions).2
        = Settlement.thrown "RangeError: Maximum call stack size exceeded" :=
  ⟨(r2_settlement examplePrettify exampleOkClient (tokenRequestOptions exampleConfig)).1,
    (r2_settlement examplePrettify exampleOkClient (tokenRequestOptions exampleConfig)).2.2.2.2.1
      { statusCode := 200, body := "done" } rfl rfl (by decide),
    ((r2_settlement examplePrettify exampleStatus399Client
      (tokenRequestOptions exampleConfig)).2.2.2.1
      { statusCode := 399, body := "odd" } rfl rfl (by decide)).1 "details" rfl,
    ((r2_settlement examplePrettify exampleErrorClient (tokenRequestOptions exampleConfig)).2.1
      "ECONNRESET" rfl).1 "details" rfl,
    ((r2_settlement examplePrettify exampleErrorClient exampleMediaOptions).2.1
      "ECONNRESET" rfl).2 "RangeError: Maximum call stack size exceeded" rfl⟩

theorem startsWith_append (a b : String) : startsWith (a ++ b) a = true := by
  simp [startsWith, String.data_append, List.isPrefixOf_iff_prefix]

/-- Every request built by one of the single-request API functions starts with the base URL
and carries the bearer header made from the access token it was built with. -/
theorem api_build (cfg : Config) (inv : ApiInvocation) (build : String → RequestOptions)
    (h : inv.call cfg = .ok build) (v : String) :
    startsWith (build v).uri (API_BASE_URL cfg) = true ∧
      (build v).headers.lookup "authorization" = some ("Bearer " ++ v) := by
  cases inv <;>
    simp only [ApiInvocation.call, Stride.sendMessage, Stride.updateMessage,
      Stride.getConversation, Stride.createConversation, Stride.archiveConversation,
      Stride.getConversationHistory, Stride.getConversationRoster, Stride.sendMedia,
      Stride.updateGlanceState, Stride.updateConfigurationState, Stride.getUser,
      Stride.convertDocToText, Stride.convertMarkdownToDoc,
      bind, Except.bind, pure, Except.pure] at h <;>
    (repeat' split at h) <;>
    first
    | (cases h; done)
    | (cases h
       simp only [String.append_assoc, startsWith_append, List.lookup]
       simp)

theorem sendPrivateMessage_build (cfg : Config) (cloudId userId : Option String)
    (document : Option Json) (build : String → RequestOptions)
    (h : sendPrivateMessage cfg cloudId userId document = .ok build) (v : String) :
    startsWith (build v).uri (API_BASE_URL cfg) = true ∧
      (build v).headers.lookup "authorization" = some ("Bearer " ++ v) := by
  simp only [sendPrivateMessage, bind, Except.bind, pure, Except.pure] at h
  (repeat' split at h) <;>
    first
    | (cases h; done)
    | (cases h
       simp only [String.append_assoc, startsWith_append, List.lookup]
       simp)

theorem outbound_startsWith_base (cfg : Config) (o : RequestOptions) (h : Outbound cfg o) :
    startsWith o.uri (API_BASE_URL cfg) = true := by
  cases h with
  | token => exact startsWith_append _ _
  | api inv build v hb => exact (api_build cfg inv build hb v).1
  | privateLookup c u d build v hb => exact (sendPrivateMessage_build cfg c u d build hb v).1
  | privateSend c v d t =>
    simp only [sendPrivateMessage.sendMessageOptions, String.append_assoc, startsWith_append]

/-- C18: every request that the client hands to `r2` (the token request and the requests of
all API functions) has a URI that starts with `https://api.atlassian.com` when `env` is
exactly `production` and with `https://api.stg.atlassian.com` for every other `env`; a client
made without `env` is of the second kind. -/
theorem outbound_uri_base (cfg : Config) (o : RequestOptions) (h : Outbound cfg o) :
    (cfg.env = "production" → startsWith o.uri "https://api.atlassian.com" = true) ∧
      (cfg.env ≠ "production" → startsWith o.uri "https://api.stg.atlassian.com" = true) ∧
      (∀ clientId clientSecret : String,
        API_BASE_URL { clientId := clientId, clientSecret := clientSecret }
          = "https://api.stg.atlassian.com") := by
  have hb := outbound_startsWith_base cfg o h
  refine ⟨?_, ?_, ?_⟩
  · intro henv
    simpa [API_BASE_URL, henv] using hb
  · intro henv
    simpa [API_BASE_URL, henv] using hb
  · intro clientId clientSecret
    simp only [API_BASE_URL]
    rw [if_neg (by decide)]

theorem outbound_uri_base_witness :
    Outbound exampleConfig (tokenRequestOptions exampleConfig) ∧
      exampleConfig.env ≠ "production" ∧
      (tokenRequestOptions exampleConfig).uri = "https://api.stg.atlassian.com/oauth/token" ∧
      startsWith (tokenRequestOptions exampleConfig).uri "https://api.stg.atlassian.com" = true :=
  ⟨Outbound.token, by decide, by decide,
    (outbound_uri_base exampleConfig (tokenRequestOptions exampleConfig) Outbound.token).2.1
      (by decide)⟩

/-- C19: when one of the thirteen single-request API functions passes its checks, it calls
`getAccessToken` and suspends on the result; every request it then hands to `r2` is built
after that promise was fulfilled with a value `v` and carries the header
`authorization: Bearer v`; and if the promise is rejected it hands no request to `r2`. -/
theorem api_request_carries_token (cfg : Config) (inv : ApiInvocation) (now : Int) (st : State)
    (build : String → RequestOptions) (hchecks : inv.call cfg = .ok build) :
    ∃ s : Suspended, ((inv.call cfg).start cfg now st).2 = .ok s ∧
      ((inv.call cfg).start cfg now st).1 = (getAccessToken cfg now st).1 ∧
      s.awaiting = (getAccessToken cfg now st).2 ∧
      (∀ (st' : State) (o : RequestOptions), o ∈ s.issued st' →
        ∃ v, settled st' s.awaiting = PromiseState.fulfilled v ∧
          s.issued st' = [o] ∧
          o.headers.lookup "authorization" = some ("Bearer " ++ v)) ∧
      (∀ (st' : State) (v : String), settled st' s.awaiting = PromiseState.fulfilled v →
        s.issued st' = [build v]) ∧
      (∀ (st' : State) (e : String), settled st' s.awaiting = PromiseState.rejected e →
        s.issued st' = []) := by
  refine ⟨{ awaiting := (getAccessToken cfg now st).2, resume := build }, ?_, ?_, rfl, ?_, ?_, ?_⟩
  · simp [ApiCall.start, hchecks]
  · simp [ApiCall.start, hchecks]
  · intro st' o ho
    simp only [Suspended.issued] at ho ⊢
    cases hs : settled st' (getAccessToken cfg now st).2 with
    | pending => simp [hs] at ho
    | rejected e => simp [hs] at ho
    | fulfilled v =>
      simp only [hs, List.mem_singleton] at ho
      subst ho
      exact ⟨v, rfl, rfl, (api_build cfg inv build hchecks v).2⟩
  · intro st' v hs
    simp [Suspended.issued, hs]
  · intro st' e hs
    simp [Suspended.issued, hs]

theorem api_request_carries_token_witness :
    ∃ s : Suspended,
      ((exampleInvocation.call exampleConfig).start exampleConfig 3000 exampleCached).2 = .ok s ∧
      s.awaiting = CallResult.value "token-A" ∧
      (s.issued exampleCached).map (fun o => o.headers.lookup "authorization")
        = [some "Bearer token-A"] ∧
      ∀ o ∈ s.issued exampleCached,
        ∃ v, settled exampleCached s.awaiting = PromiseState.fulfilled v ∧
          s.issued exampleCached = [o] ∧
          o.headers.lookup "authorization" = some ("Bearer " ++ v) :=
  (api_request_carries_token exampleConfig exampleInvocation 3000 exampleCached _ rfl).elim
    fun s hs => ⟨s, hs.1, hs.2.2.1.trans rfl,
      by rw [hs.2.2.2.2.1 exampleCached "token-A" (by rw [hs.2.2.1]; rfl)]; rfl,
      fun o ho => hs.2.2.2.1 exampleCached o ho⟩

/-! ## Lemmas on documents -/

theorem split_go_ne_nil (sep : List Char) :
    ∀ (s : List Char) (k : Nat) (acc : List Char), split.go sep s k acc ≠ [] := by
  intro s
  induction s with
  | nil => intro k acc; simp [split.go]
  | cons c cs ih =>
    intro k acc
    cases k with
    | succ k => simpa [split.go] using ih k acc
    | zero =>
      by_cases hp : sep.isPrefixOf (c :: cs) = true
      · simp [split.go, hp]
      · simpa [split.go, hp] using ih 0 (c :: acc)

theorem intercalate_cons_cons (sep a b : List Char) (l : List (List Char)) :
    sep.intercalate (a :: b :: l) = a ++ sep ++ sep.intercalate (b :: l) := by
  simp [List.intercalate, List.intersperse]

theorem intercalate_cons_of_ne_nil (sep a : List Char) (l : List (List Char)) (hl : l ≠ []) :
    sep.intercalate (a :: l) = a ++ sep ++ sep.intercalate l := by
  cases l with
  | nil => exact absurd rfl hl
  | cons b l => exact intercalate_cons_cons sep a b l

/-- Joining the segments with the separator gives the text back. -/
theorem split_go_join (sep : List Char) (hsep : sep ≠ []) :
    ∀ (s : List Char) (k : Nat) (acc : List Char),
      sep.intercalate (split.go sep s k acc) = acc.reverse ++ s.drop k := by
  intro s
  induction s with
  | nil => intro k acc; simp [split.go, List.intercalate]
  | cons c cs ih =>
    intro k acc
    cases k with
    | succ k => simpa [split.go] using ih k acc
    | zero =>
      by_cases hp : sep.isPrefixOf (c :: cs) = true
      · have hgo : split.go sep (c :: cs) 0 acc
            = acc.reverse :: split.go sep cs (sep.length - 1) [] := by
          simp [split.go, hp]
        rw [hgo, intercalate_cons_of_ne_nil _ _ _ (split_go_ne_nil sep cs _ _), ih]
        obtain ⟨t, ht⟩ := List.isPrefixOf_iff_prefix.1 hp
        cases sep with
        | nil => exact absurd rfl hsep
        | cons d sep' =>
          simp only [List.cons_append, List.cons.injEq] at ht
          obtain ⟨hd, hcs⟩ := ht
          subst hd
          subst hcs
          simp
      · have hgo : split.go sep (c :: cs) 0 acc = split.go sep cs 0 (c :: acc) := by
          simp [split.go, hp]
        rw [hgo, ih]
        simp

/-- No segment contains the separator. -/
theorem split_go_no_sep (sep : List Char) (hsep : sep ≠ []) :
    ∀ (s : List Char) (k : Nat) (acc : List Char),
      (∀ p q, acc.reverse = p ++ q → q ≠ [] → ¬ sep <+: q ++ s) →
      (k ≠ 0 → acc = []) →
      ∀ seg ∈ split.go sep s k acc, ¬ sep <:+: seg := by
  have hfirst : ∀ (s acc : List Char),
      (∀ p q, acc.reverse = p ++ q → q ≠ [] → ¬ sep <+: q ++ s) → ¬ sep <:+: acc.reverse := by
    intro s acc hacc hin
    obtain ⟨a, b, hab⟩ := hin
    refine hacc a (sep ++ b) (by rw [← hab]; simp) (by simp [hsep]) ?_
    exact ⟨b ++ s, by simp⟩
  intro s
  induction s with
  | nil =>
    intro k acc hacc _ seg hseg
    simp only [split.go, List.mem_singleton] at hseg
    subst hseg
    exact hfirst [] acc hacc
  | cons c cs ih =>
    intro k acc hacc hk seg hseg
    cases k with
    | succ k =>
      have hnil := hk (by omega)
      subst hnil
      simp only [split.go] at hseg
      exact ih k [] (by intro p q hpq hq; simp at hpq; exact absurd hpq.2 hq) (fun _ => rfl)
        seg hseg
    | zero =>
      by_cases hp : sep.isPrefixOf (c :: cs) = true
      · simp only [split.go, hp, if_true, List.mem_cons] at hseg
        rcases hseg with h | h
        · subst h
          exact hfirst (c :: cs) acc hacc
        · exact ih _ [] (by intro p q hpq hq; simp at hpq; exact absurd hpq.2 hq)
            (fun _ => rfl) seg h
      · simp only [split.go, hp, Bool.false_eq_true, if_false] at hseg
        refine ih 0 (c :: acc) ?_ (fun h => absurd rfl h) seg hseg
        intro p q hpq hq
        rcases List.eq_nil_or_concat q with hq0 | ⟨q', b, hq'⟩
        · exact absurd hq0 hq
        · subst hq'
          rw [List.reverse_cons, List.concat_eq_append, ← List.append_assoc] at hpq
          rw [List.concat_eq_append]
          have := List.append_inj' hpq rfl
          obtain ⟨h1, h2⟩ := this
          cases h2
          by_cases hq'nil : q' = []
          · subst hq'nil
            simpa [List.isPrefixOf_iff_prefix] using hp
          · have := hacc p q' h1 hq'nil
            simpa using this

theorem split_join (text sep : String) (hsep : sep ≠ "") :
    sep.data.intercalate ((split text sep).map String.data) = text.data := by
  have hne : sep.data ≠ [] := by
    intro h
    apply hsep
    cases sep
    simp_all
  have hmap : (split text sep).map String.data = split.go sep.data text.data 0 [] := by
    simp [split, List.map_map, Function.comp_def]
  rw [hmap, split_go_join sep.data hne]
  simp

theorem split_no_sep (text sep : String) (hsep : sep ≠ "") :
    ∀ part ∈ split text sep, ¬ sep.data <:+: part.data := by
  have hne : sep.data ≠ [] := by
    intro h
    apply hsep
    cases sep
    simp_all
  intro part hpart
  simp only [split, List.mem_map] at hpart
  obtain ⟨seg, hseg, rfl⟩ := hpart
  exact split_go_no_sep sep.data hne text.data 0 []
    (by intro p q hpq hq; simp at hpq; exact absurd hpq.2 hq) (fun h => absurd rfl h) seg hseg

theorem rest_intersperse (mention : Json) (part : String) (parts : List String) :
    createDocMentioningUser.rest mention (part :: parts)
      = mention :: List.intersperse mention ((part :: parts).map textNode) := by
  induction parts generalizing part with
  | nil => simp [createDocMentioningUser.rest]
  | cons q more ih =>
    rw [createDocMentioningUser.rest, ih q]
    simp [List.intersperse]

theorem rest_length (mention : Json) (parts : List String) :
    (createDocMentioningUser.rest mention parts).length = 2 * parts.length := by
  induction parts with
  | nil => rfl
  | cons p more ih =>
    simp only [createDocMentioningUser.rest, List.length_cons, ih]
    omega

/-! ## Documents: claims -/

theorem mentionNode_eq (id displayName : Option Json) :
    mentionNode id displayName =
      Json.obj
        [ ("type", Json.str "mention"),
          ("attrs", Json.obj
            ((id.map fun v => ("id", v)).toList ++
              (displayName.map fun v => ("text", v)).toList)) ] := by
  cases id <;> cases displayName <;> rfl

theorem textNode_eq :
    textNode = fun part => Json.obj [("type", Json.str "text"), ("text", Json.str part)] :=
  rfl

/-- C20: for a text that `split` cuts at the placeholder `{{MENTION}}` into `k + 1` parts with
`k >= 1`, the document built for `user` has version 1, type `doc` and one paragraph whose
content is the nodes `{type: "text", text: part}` of the parts in order, with the node
`{type: "mention", attrs: {id: user.id, text: user.displayName}}` between each adjacent pair
(a property that is `undefined` is left out): `2 * k + 1` nodes.  The parts are the segments
of the text: joined with the placeholder they give the text back, and none of them contains
the placeholder. -/
theorem createDocMentioningUser_mentions (user : Json) (text : String)
    (id displayName : Option Json) (k : Nat)
    (hid : getProp (some user) "id" = .ok id)
    (hname : getProp (some user) "displayName" = .ok displayName)
    (hparts : (split text MENTION).length = k + 1) (hk : 1 ≤ k) :
    createDocMentioningUser.document user text =
        .ok (Json.obj
          [ ("version", Json.num 1),
            ("type", Json.str "doc"),
            ("content", Json.arr
              [Json.obj
                [ ("type", Json.str "paragraph"),
                  ("content", Json.arr
                    (List.intersperse
                      (Json.obj
                        [ ("type", Json.str "mention"),
                          ("attrs", Json.obj
                            ((id.map fun v => ("id", v)).toList ++
                              (displayName.map fun v => ("text", v)).toList)) ])
                      ((split text MENTION).map fun part =>
                        Json.obj [("type", Json.str "text"), ("text", Json.str part)]))) ]]) ]) ∧
      (List.intersperse
          (Json.obj
            [ ("type", Json.str "mention"),
              ("attrs", Json.obj
                ((id.map fun v => ("id", v)).toList ++
                  (displayName.map fun v => ("text", v)).toList)) ])
          ((split text MENTION).map fun part =>
            Json.obj [("type", Json.str "text"), ("text", Json.str part)])).length
        = 2 * k + 1 ∧
      MENTION = "\x7b\x7bMENTION\x7d\x7d" ∧
      MENTION.data.intercalate ((split text MENTION).map String.data) = text.data ∧
      ∀ part ∈ split text MENTION, ¬ MENTION.data <:+: part.data := by
  have hcontent : ∀ parts : List String, parts.length = k + 1 →
      createDocMentioningUser.paragraphContent (mentionNode id displayName) parts
          = List.intersperse (mentionNode id displayName) (parts.map textNode) ∧
        (createDocMentioningUser.paragraphContent (mentionNode id displayName) parts).length
          = 2 * k + 1 := by
    intro parts hlen
    match parts, hlen with
    | [], h => simp at h
    | [_], h => simp at h; omega
    | first :: second :: more, h =>
      simp only [createDocMentioningUser.paragraphContent]
      refine ⟨?_, ?_⟩
      · rw [rest_intersperse]
        simp [List.intersperse]
      · simp only [List.length_cons, rest_length] at h ⊢
        omega
  obtain ⟨hc, hl⟩ := hcontent (split text MENTION) hparts
  rw [hc, mentionNode_eq, textNode_eq] at hl
  refine ⟨?_, hl, rfl, split_join text MENTION (by decide), split_no_sep text MENTION (by decide)⟩
  simp only [createDocMentioningUser.document, hid, hname, hc]
  rw [mentionNode_eq, textNode_eq]

theorem createDocMentioningUser_mentions_witness :
    (split "See \x7b\x7bMENTION\x7d\x7d, I can do it!" MENTION) = ["See ", ", I can do it!"] ∧
      createDocMentioningUser.document exampleUser "See \x7b\x7bMENTION\x7d\x7d, I can do it!" =
        .ok (Json.obj
          [ ("version", Json.num 1),
            ("type", Json.str "doc"),
            ("content", Json.arr
              [Json.obj
                [ ("type", Json.str "paragraph"),
                  ("content", Json.arr
                    [ Json.obj [("type", Json.str "text"), ("text", Json.str "See ")],
                      Json.obj
                        [ ("type", Json.str "mention"),
                          ("attrs", Json.obj
                            [("id", Json.str "U1"), ("text", Json.str "Ann")]) ],
                      Json.obj
                        [("type", Json.str "text"), ("text", Json.str ", I can do it!")] ]) ]]) ]) :=
  ⟨by decide,
    (createDocMentioningUser_mentions exampleUser "See \x7b\x7bMENTION\x7d\x7d, I can do it!"
      (some (Json.str "U1")) (some (Json.str "Ann")) 1 rfl rfl (by decide) (by decide)).1.trans
      rfl⟩

/-! ## The token cache: a short-lived token -/

/-- A token that lasts less than a minute: when the token request of fetch `id` succeeds at
time `t` with `expires_in < 60`, the cached token has `refresh_time < t` and
`accessTokenPromise` is `null`; in every state that holds this token, a `getAccessToken` call
at a time `now >= t` is not answered from the cache, and with `accessTokenPromise` `null` it
issues a new token request. -/
theorem short_lived_token_not_served (cfg : Config) (id : Nat) (newToken : TokenResponse)
    (t : Int) (st0 s' : State)
    (hdone : completeFetch id (.ok newToken) t st0 = some s')
    (hshort : newToken.expires_in < 60) :
    (∃ tok, s'.token = some tok ∧ tok.refresh_time < t) ∧
      s'.accessTokenPromise = none ∧
      ∀ (st : State) (now : Int), st.token = s'.token → t ≤ now →
        cacheUsable st now = false ∧
        (∀ v, (getAccessToken cfg now st).2 ≠ CallResult.value v) ∧
        (st.accessTokenPromise = none →
          (getAccessToken cfg now st).1.fetches =
              st.fetches ++
                [{ options := tokenRequestOptions cfg, promise := PromiseState.pending }] ∧
            (getAccessToken cfg now st).2 = CallResult.promise st.fetches.length) := by
  obtain ⟨f, hf, hpend⟩ := completeFetch_some id (.ok newToken) t st0 s' hdone
  rw [completeFetch_ok id newToken t st0 f hf hpend] at hdone
  cases hdone
  have hlt : (withRefreshTime newToken t).refresh_time < t := by
    simp only [withRefreshTime]
    omega
  refine ⟨⟨_, rfl, hlt⟩, rfl, ?_⟩
  intro st now htok hnow
  have hstale : cacheUsable st now = false := by
    simp only [cacheUsable, htok]
    simp only [decide_eq_false_iff_not, not_le]
    omega
  refine ⟨hstale, ?_, ?_⟩
  · intro v hv
    cases hp : st.accessTokenPromise with
    | none =>
      rw [getAccessToken_start cfg now st hstale hp] at hv
      cases hv
    | some p =>
      rw [getAccessToken_join cfg now st p hstale hp] at hv
      cases hv
  · intro hidle
    rw [getAccessToken_start cfg now st hstale hidle]
    exact ⟨rfl, rfl⟩

theorem short_lived_token_not_served_witness :
    ∃ s', completeFetch 0 (.ok exampleShortResponse) 2000 exampleInFlight = some s' ∧
      (∃ tok, s'.token = some tok ∧ tok.refresh_time < 2000) ∧
      cacheUsable s' 2000 = false ∧
      (getAccessToken exampleConfig 2000 s').1.fetches.length = 2 ∧
      (getAccessToken exampleConfig 2000 s').2 = CallResult.promise 1 :=
  ⟨_, rfl,
    (short_lived_token_not_served exampleConfig 0 exampleShortResponse 2000 exampleInFlight _
      rfl (by decide)).1,
    ((short_lived_token_not_served exampleConfig 0 exampleShortResponse 2000 exampleInFlight _
      rfl (by decide)).2.2 _ 2000 rfl (by decide)).1,
    rfl,
    (((short_lived_token_not_served exampleConfig 0 exampleShortResponse 2000 exampleInFlight _
      rfl (by decide)).2.2 _ 2000 rfl (by decide)).2.2 rfl).2⟩

/-! ## The inbound JWT gate: the claims read and `next` -/

/-- The reads of lines 662-664 succeed on claims with a `context` that is not `null`. -/
theorem contextOfClaims_ok (fields : List (String × Json)) (c : Json)
    (hcontext : fields.lookup "context" = some c) (hc : c ≠ Json.null) :
    contextOfClaims (Json.obj fields) =
      .ok { cloudId := c.field "cloudId", conversationId := c.field "resourceId",
            userId := fields.lookup "sub" } := by
  cases c with
  | null => exact absurd rfl hc
  | bool b => simp [contextOfClaims, getProp, hcontext, Json.field]
  | num n => simp [contextOfClaims, getProp, hcontext, Json.field]
  | str x => simp [contextOfClaims, getProp, hcontext, Json.field]
  | arr xs => simp [contextOfClaims, getProp, hcontext, Json.field]
  | obj fs => simp [contextOfClaims, getProp, hcontext, Json.field]

/-- The reads of lines 662-664 throw on any other claims. -/
theorem contextOfClaims_error (payload : Json)
    (h : ¬ ∃ fields c, payload = Json.obj fields ∧ fields.lookup "context" = some c ∧
      c ≠ Json.null) :
    ∃ e, contextOfClaims payload = .error e := by
  cases payload with
  | null => exact ⟨_, by simp [contextOfClaims, getProp]; rfl⟩
  | bool b => exact ⟨_, by simp [contextOfClaims, getProp]; rfl⟩
  | num n => exact ⟨_, by simp [contextOfClaims, getProp]; rfl⟩
  | str x => exact ⟨_, by simp [contextOfClaims, getProp]; rfl⟩
  | arr xs => exact ⟨_, by simp [contextOfClaims, getProp]; rfl⟩
  | obj fields =>
    cases hl : fields.lookup "context" with
    | none => exact ⟨_, by simp [contextOfClaims, getProp, hl]; rfl⟩
    | some c =>
      have hnull : c = Json.null := by
        by_contra hne
        exact h ⟨fields, c, rfl, hl, hne⟩
      subst hnull
      exact ⟨_, by simp [contextOfClaims, getProp, hl]; rfl⟩

/-- C22, as stated, fails: the token `ddd.eee.fff` verifies and its claims are
`{sub: "U1", context: "abc"}`, where `context` is a string and not an object; the reads
`"abc".resourceId` and `"abc".cloudId` give `undefined` without throwing, and `next` is
called. -/
theorem validateJWT_accepts_string_context :
    exampleStringContextJwtUtil.decode "ddd.eee.fff" exampleConfig.clientSecret
        = .ok (Json.obj [("sub", Json.str "U1"), ("context", Json.str "abc")]) ∧
      validateJWT exampleStringContextJwtUtil exampleConfig { queryJwt := some "ddd.eee.fff" }
          (.ok ()) {}
        = { context := some { cloudId := none, conversationId := none,
                              userId := some (Json.str "U1") }
            status := none
            nextCalls := 1 } :=
  ⟨rfl, rfl⟩

/-- C22, amended: for a token that verifies, with `next` returning normally, `validateJWT`
calls `next` if and only if the claims are an object with a `context` that is not `null`.
Then `res.locals.context` holds `context.cloudId`, `context.resourceId` and `sub`, each
`undefined` when missing (also when `context` is a string, number or boolean), and no status
is sent; otherwise the answer is 403. -/
theorem validateJWT_calls_next_iff (lib : JwtUtil) (cfg : Config) (req : Request)
    (res : Response) (token : String) (payload verified : Json)
    (hjwt : getJWT lib req = .ok { encoded := token, decoded := payload })
    (hverify : lib.decode token cfg.clientSecret = .ok verified) :
    ((validateJWT lib cfg req (.ok ()) res).nextCalls = res.nextCalls + 1 ↔
        ∃ fields c, payload = Json.obj fields ∧ fields.lookup "context" = some c ∧
          c ≠ Json.null) ∧
      (∀ fields c, payload = Json.obj fields → fields.lookup "context" = some c →
        c ≠ Json.null →
        validateJWT lib cfg req (.ok ()) res =
          { context := some { cloudId := c.field "cloudId",
                              conversationId := c.field "resourceId",
                              userId := fields.lookup "sub" }
            status := res.status
            nextCalls := res.nextCalls + 1 }) ∧
      ((¬ ∃ fields c, payload = Json.obj fields ∧ fields.lookup "context" = some c ∧
          c ≠ Json.null) →
        validateJWT lib cfg req (.ok ()) res = res.sendStatus 403) := by
  have hread := readContext_of_verified lib cfg req _ verified hjwt hverify
  have hyes : ∀ fields c, payload = Json.obj fields → fields.lookup "context" = some c →
      c ≠ Json.null →
      validateJWT lib cfg req (.ok ()) res =
        { context := some { cloudId := c.field "cloudId",
                            conversationId := c.field "resourceId",
                            userId := fields.lookup "sub" }
          status := res.status
          nextCalls := res.nextCalls + 1 } := by
    intro fields c hp hl hc
    subst hp
    simp only [validateJWT, hread, contextOfClaims_ok fields c hl hc]
  have hno : (¬ ∃ fields c, payload = Json.obj fields ∧ fields.lookup "context" = some c ∧
      c ≠ Json.null) → validateJWT lib cfg req (.ok ()) res = res.sendStatus 403 := by
    intro h
    obtain ⟨e, he⟩ := contextOfClaims_error payload h
    exact validateJWT_of_error lib cfg req (.ok ()) res e (by rw [hread]; exact he)
  refine ⟨⟨?_, ?_⟩, hyes, hno⟩
  · intro hcalled
    by_contra h
    rw [hno h] at hcalled
    simp [Response.sendStatus] at hcalled
  · rintro ⟨fields, c, hp, hl, hc⟩
    rw [hyes fields c hp hl hc]

theorem validateJWT_calls_next_iff_witness :
    getJWT exampleJwtUtil { queryJwt := some "aaa.bbb.ccc" }
        = .ok { encoded := "aaa.bbb.ccc", decoded := examplePayload } ∧
      ((validateJWT exampleJwtUtil exampleConfig { queryJwt := some "aaa.bbb.ccc" }
          (.ok ()) {}).nextCalls = 0 + 1 ↔
        ∃ fields c, examplePayload = Json.obj fields ∧ fields.lookup "context" = some c ∧
          c ≠ Json.null) ∧
      validateJWT exampleStringContextJwtUtil exampleConfig { queryJwt := some "ddd.eee.fff" }
          (.ok ()) {}
        = { context := some { cloudId := (Json.str "abc").field "cloudId",
                              conversationId := (Json.str "abc").field "resourceId",
                              userId := some (Json.str "U1") }
            status := none
            nextCalls := 0 + 1 } :=
  ⟨rfl,
    (validateJWT_calls_next_iff exampleJwtUtil exampleConfig { queryJwt := some "aaa.bbb.ccc" }
      {} "aaa.bbb.ccc" examplePayload examplePayload rfl rfl).1,
    (validateJWT_calls_next_iff exampleStringContextJwtUtil exampleConfig
      { queryJwt := some "ddd.eee.fff" } {} "ddd.eee.fff" exampleStringContextPayload
      exampleStringContextPayload rfl rfl).2.1 _ (Json.str "abc") rfl rfl (by simp)⟩

/-- C23: for a request whose token verifies and whose claims can be read, if `next` throws,
`validateJWT` has set `res.locals.context`, has called `next` once, catches the exception
and answers with status 403. -/
theorem validateJWT_next_throws (lib : JwtUtil) (cfg : Config) (req : Request)
    (res : Response) (token err : String) (payload verified : Json) (ctx : Context)
    (hjwt : getJWT lib req = .ok { encoded := token, decoded := payload })
    (hverify : lib.decode token cfg.clientSecret = .ok verified)
    (hctx : contextOfClaims payload = .ok ctx) :
    validateJWT lib cfg req (.error err) res =
      { context := some ctx, status := some 403, nextCalls := res.nextCalls + 1 } := by
  have hread := readContext_of_verified lib cfg req _ verified hjwt hverify
  simp only [validateJWT, hread, hctx, Response.sendStatus]

theorem validateJWT_next_throws_witness :
    exampleJwtUtil.decode "aaa.bbb.ccc" exampleConfig.clientSecret = .ok examplePayload ∧
      validateJWT exampleJwtUtil exampleConfig { queryJwt := some "aaa.bbb.ccc" }
          (.error "handler failed") {}
        = { context := some { cloudId := some (Json.str "T1"),
                              conversationId := some (Json.str "C1"),
                              userId := some (Json.str "U1") }
            status := some 403
            nextCalls := 1 } :=
  ⟨rfl,
    validateJWT_next_throws exampleJwtUtil exampleConfig { queryJwt := some "aaa.bbb.ccc" } {}
      "aaa.bbb.ccc" "handler failed" examplePayload examplePayload _ rfl rfl rfl⟩

/-! ## Documents: a text without placeholder -/

theorem split_go_of_no_sep (sep : List Char) :
    ∀ (s acc : List Char), (∀ t, t <:+ s → ¬ sep <+: t) →
      split.go sep s 0 acc = [acc.reverse ++ s] := by
  intro s
  induction s with
  | nil => intro acc _; simp [split.go]
  | cons c cs ih =>
    intro acc h
    have hp : ¬ sep.isPrefixOf (c :: cs) = true := by
      rw [List.isPrefixOf_iff_prefix]
      exact h (c :: cs) (List.suffix_refl _)
    have hgo : split.go sep (c :: cs) 0 acc = split.go sep cs 0 (c :: acc) := by
      simp [split.go, hp]
    rw [hgo, ih (c :: acc) (fun t ht => h t (ht.trans (List.suffix_cons c cs)))]
    simp

theorem split_of_no_sep (text sep : String) (h : ¬ sep.data <:+: text.data) :
    split text sep = [text] := by
  have hgo := split_go_of_no_sep sep.data text.data []
    (fun t ht hpre => h (List.infix_iff_prefix_suffix.2 ⟨t, hpre, ht⟩))
  simp [split, hgo]

/-- C24: for a non-empty text that does not contain the placeholder, the checks of
`createDocMentioningUser` pass (given `cloudId` and `userId`), `split` returns the text as its
one part, and the document has one paragraph whose content is exactly the node
`{type: "mention", attrs: {id: user.id, text: user.displayName}}` (a property that is
`undefined` is left out) followed by the node `{type: "text", text: text}` holding the whole
text. -/
theorem createDocMentioningUser_prepends_mention (cfg : Config) (cloudId userId text : String)
    (user : Json) (id displayName : Option Json)
    (hcloud : cloudId ≠ "") (huser : userId ≠ "") (htext : text ≠ "")
    (hnone : ¬ MENTION.data <:+: text.data)
    (hid : getProp (some user) "id" = .ok id)
    (hname : getProp (some user) "displayName" = .ok displayName) :
    MENTION = "\x7b\x7bMENTION\x7d\x7d" ∧
      split text MENTION = [text] ∧
      ∃ build, createDocMentioningUser cfg (some cloudId) (some userId) (some text)
          = .ok (getUser cfg (some cloudId) (some userId), build) ∧
        build user =
          .ok (Json.obj
            [ ("version", Json.num 1),
              ("type", Json.str "doc"),
              ("content", Json.arr
                [Json.obj
                  [ ("type", Json.str "paragraph"),
                    ("content", Json.arr
                      [ Json.obj
                          [ ("type", Json.str "mention"),
                            ("attrs", Json.obj
                              ((id.map fun v => ("id", v)).toList ++
                                (displayName.map fun v => ("text", v)).toList)) ],
                        Json.obj [("type", Json.str "text"), ("text", Json.str text)] ]) ]]) ]) := by
  have hsplit := split_of_no_sep text MENTION hnone
  refine ⟨rfl, hsplit, ?_⟩
  refine ⟨fun user => createDocMentioningUser.document user text, ?_, ?_⟩
  · simp [createDocMentioningUser, required, hcloud, huser, htext, bind, Except.bind, pure,
      Except.pure]
  · simp only [createDocMentioningUser.document, hid, hname, hsplit]
    rw [mentionNode_eq]
    rfl

theorem createDocMentioningUser_prepends_mention_witness :
    split "Hello there" MENTION = ["Hello there"] ∧
      ∃ build, createDocMentioningUser exampleConfig (some "T1") (some "U1") (some "Hello there")
          = .ok (getUser exampleConfig (some "T1") (some "U1"), build) ∧
        build exampleUser =
          .ok (Json.obj
            [ ("version", Json.num 1),
              ("type", Json.str "doc"),
              ("content", Json.arr
                [Json.obj
                  [ ("type", Json.str "paragraph"),
                    ("content", Json.arr
                      [ Json.obj
                          [ ("type", Json.str "mention"),
                            ("attrs", Json.obj
                              [("id", Json.str "U1"), ("text", Json.str "Ann")]) ],
                        Json.obj
                          [("type", Json.str "text"), ("text", Json.str "Hello there")] ]) ]]) ]) :=
  ⟨(createDocMentioningUser_prepends_mention exampleConfig "T1" "U1" "Hello there" exampleUser
      (some (Json.str "U1")) (some (Json.str "Ann")) (by decide) (by decide) (by decide)
      (by decide) rfl rfl).2.1,
    (createDocMentioningUser_prepends_mention exampleConfig "T1" "U1" "Hello there" exampleUser
      (some (Json.str "U1")) (some (Json.str "Ann")) (by decide) (by decide) (by decide)
      (by decide) rfl rfl).2.2⟩

/-! ## The text helpers: claims -/

theorem convertTextToDoc_ok (text : String) (htext : text ≠ "") :
    convertTextToDoc (some text) =
      .ok (Json.obj
        [ ("version", Json.num 1),
          ("type", Json.str "doc"),
          ("content", Json.arr
            [Json.obj
              [ ("type", Json.str "paragraph"),
                ("content", Json.arr
                  [Json.obj [("type", Json.str "text"), ("text", Json.str text)]]) ]]) ]) := by
  simp [convertTextToDoc, required, htext, bind, Except.bind, pure, Except.pure]

/-- With a non-empty text, `sendTextMessage` and `sendMessage` on the converted text throw
together (with different messages) or build the same request. -/
theorem sendTextMessage_toOption (cfg : Config) (cloudId conversationId : Option String)
    (text : String) (document : Json) (htext : text ≠ "")
    (hdoc : convertTextToDoc (some text) = .ok document) :
    (sendTextMessage cfg cloudId conversationId (some text)).toOption =
      (sendMessage cfg cloudId conversationId (some document)).toOption := by
  rw [convertTextToDoc_ok text htext] at hdoc
  cases hdoc
  have hconv := convertTextToDoc_ok text htext
  cases cloudId with
  | none => simp [sendTextMessage, sendMessage, required, bind, Except.bind, Except.toOption]
  | some c =>
    by_cases hc : c = ""
    · simp [sendTextMessage, sendMessage, required, hc, bind, Except.bind, Except.toOption]
    · cases conversationId with
      | none =>
        simp [sendTextMessage, sendMessage, required, hc, bind, Except.bind, Except.toOption]
      | some v =>
        by_cases hv : v = ""
        · simp [sendTextMessage, sendMessage, required, hc, hv, bind, Except.bind,
            Except.toOption]
        · simp [sendTextMessage, required, hc, hv, htext, hconv, bind, Except.bind]

theorem reply_eq_sendMessage (cfg : Config) (reqBody : ReqBody) (conversation : Conversation)
    (text : String) (document : Json) (htext : text ≠ "")
    (hdoc : convertTextToDoc (some text) = .ok document)
    (hconv : reqBody.conversation = some conversation) :
    reply cfg (some reqBody) (some document) =
      sendMessage cfg reqBody.cloudId conversation.id (some document) := by
  rw [convertTextToDoc_ok text htext] at hdoc
  cases hdoc
  simp [reply, requiredDocument, requiredValue, Json.truthy, getProp, List.lookup,
    ReqBody.conversationId, hconv, bind, Except.bind]

theorem replyWithText_eq_sendTextMessage (cfg : Config) (reqBody : ReqBody)
    (conversation : Conversation) (text : String) (htext : text ≠ "")
    (hconv : reqBody.conversation = some conversation) :
    replyWithText cfg (some reqBody) (some text) =
      sendTextMessage cfg reqBody.cloudId conversation.id (some text) := by
  simp [replyWithText, required, htext, ReqBody.conversationId, hconv, bind, Except.bind]

/-- Two calls that throw together or build the same request cause the same requests. -/
theorem issued_congr (a b : ApiCall) (h : a.toOption = b.toOption) (cfg : Config) (now : Int)
    (st : State) :
    (a.start cfg now st).1 = (b.start cfg now st).1 ∧
      ∀ st', a.issued cfg now st st' = b.issued cfg now st st' := by
  cases a with
  | error ea =>
    cases b with
    | error eb => exact ⟨rfl, fun _ => rfl⟩
    | ok fb => simp [Except.toOption] at h
  | ok fa =>
    cases b with
    | error eb => simp [Except.toOption] at h
    | ok fb =>
      simp only [Except.toOption, Option.some.injEq] at h
      subst h
      exact ⟨rfl, fun _ => rfl⟩

/-- C25: for a non-empty text, `convertTextToDoc(text)` is the version-1 `doc` with one
paragraph holding one text node with that text.  `sendTextMessage` on non-empty `cloudId`
and `conversationId` is `sendMessage` on that document.  For a `reqBody` with a conversation,
`replyWithText` and `reply` on that document cause the same requests, and when
`reqBody.cloudId` and `reqBody.conversation.id` are non-empty both build the POST of the
document to that tenant and conversation. -/
theorem text_helpers_send_converted_text (cfg : Config) (text : String) (document : Json)
    (htext : text ≠ "") (hdoc : convertTextToDoc (some text) = .ok document) :
    document =
        Json.obj
          [ ("version", Json.num 1),
            ("type", Json.str "doc"),
            ("content", Json.arr
              [Json.obj
                [ ("type", Json.str "paragraph"),
                  ("content", Json.arr
                    [Json.obj [("type", Json.str "text"), ("text", Json.str text)]]) ]]) ] ∧
      (∀ cloudId conversationId : String, cloudId ≠ "" → conversationId ≠ "" →
        sendTextMessage cfg (some cloudId) (some conversationId) (some text) =
          sendMessage cfg (some cloudId) (some conversationId) (some document)) ∧
      (∀ (reqBody : ReqBody) (conversation : Conversation),
        reqBody.conversation = some conversation →
        (∀ (now : Int) (st : State),
          ((replyWithText cfg (some reqBody) (some text)).start cfg now st).1 =
              ((reply cfg (some reqBody) (some document)).start cfg now st).1 ∧
            ∀ st', (replyWithText cfg (some reqBody) (some text)).issued cfg now st st' =
              (reply cfg (some reqBody) (some document)).issued cfg now st st') ∧
        (∀ c v : String, reqBody.cloudId = some c → c ≠ "" → conversation.id = some v →
          v ≠ "" →
          replyWithText cfg (some reqBody) (some text) =
              reply cfg (some reqBody) (some document) ∧
            reply cfg (some reqBody) (some document) =
              .ok fun accessToken =>
                { uri := API_BASE_URL cfg ++ "/site/" ++ c ++ "/conversation/" ++ v
                    ++ "/message"
                  method := "POST"
                  headers := [("authorization", "Bearer " ++ accessToken),
                              ("cache-control", "no-cache")]
                  json := some (Json.obj [("body", document)]) })) := by
  have hlit := convertTextToDoc_ok text htext
  have hsend : ∀ cloudId conversationId : String, cloudId ≠ "" → conversationId ≠ "" →
      sendTextMessage cfg (some cloudId) (some conversationId) (some text) =
        sendMessage cfg (some cloudId) (some conversationId) (some document) := by
    intro c v hc hv
    simp [sendTextMessage, required, hc, hv, htext, hdoc, bind, Except.bind]
  refine ⟨?_, hsend, ?_⟩
  · rw [hlit] at hdoc
    cases hdoc
    rfl
  · intro reqBody conversation hconv
    have hr := reply_eq_sendMessage cfg reqBody conversation text document htext hdoc hconv
    have hrt := replyWithText_eq_sendTextMessage cfg reqBody conversation text htext hconv
    refine ⟨?_, ?_⟩
    · intro now st
      apply issued_congr
      rw [hr, hrt]
      exact sendTextMessage_toOption cfg _ _ text document htext hdoc
    · intro c v hc hcne hv hvne
      rw [hr, hrt, hc, hv, hsend c v hcne hvne]
      refine ⟨rfl, ?_⟩
      rw [hlit] at hdoc
      cases hdoc
      simp [sendMessage, required, hcne, hvne, requiredDocument, requiredValue, Json.truthy,
        getProp, List.lookup, bind, Except.bind, pure, Except.pure]

theorem text_helpers_send_converted_text_witness :
    convertTextToDoc (some "hi") = .ok
        (Json.obj
          [ ("version", Json.num 1),
            ("type", Json.str "doc"),
            ("content", Json.arr
              [Json.obj
                [ ("type", Json.str "paragraph"),
                  ("content", Json.arr
                    [Json.obj [("type", Json.str "text"), ("text", Json.str "hi")]]) ]]) ]) ∧
      sendTextMessage exampleConfig (some "T1") (some "C1") (some "hi") =
        sendMessage exampleConfig (some "T1") (some "C1")
          (some (Json.obj
            [ ("version", Json.num 1),
              ("type", Json.str "doc"),
              ("content", Json.arr
                [Json.obj
                  [ ("type", Json.str "paragraph"),
                    ("content", Json.arr
                      [Json.obj [("type", Json.str "text"), ("text", Json.str "hi")]]) ]]) ])) ∧
      replyWithText exampleConfig (some exampleReqBody) (some "hi") =
        reply exampleConfig (some exampleReqBody)
          (some (Json.obj
            [ ("version", Json.num 1),
              ("type", Json.str "doc"),
              ("content", Json.arr
                [Json.obj
                  [ ("type", Json.str "paragraph"),
                    ("content", Json.arr
                      [Json.obj [("type", Json.str "text"), ("text", Json.str "hi")]]) ]]) ])) :=
  ⟨rfl,
    (text_helpers_send_converted_text exampleConfig "hi" _ (by decide) rfl).2.1 "T1" "C1"
      (by decide) (by decide),
    (((text_helpers_send_converted_text exampleConfig "hi" _ (by decide) rfl).2.2 exampleReqBody
      { id := some "C1" } rfl).2 "T1" "C1" rfl (by decide) rfl (by decide)).1⟩

/-! ## `sendMessage`: the checks come first -/

theorem requiredDocument_missing (document : Option Json) (missing wrong : String)
    (h : document = none ∨ ∃ d, document = some d ∧ d.truthy = false) :
    requiredDocument document missing wrong = .error missing := by
  rcases h with h | ⟨d, h, hd⟩
  · simp [requiredDocument, requiredValue, h]
  · simp [requiredDocument, requiredValue, h, hd]

theorem requiredDocument_wrong (d : Json) (missing wrong : String)
    (htruthy : d.truthy = true) (hcontent : ∀ xs, d.field "content" ≠ some (Json.arr xs)) :
    requiredDocument (some d) missing wrong = .error wrong := by
  cases d with
  | null => simp [Json.truthy] at htruthy
  | bool b => simp [requiredDocument, requiredValue, htruthy, getProp]
  | num n => simp [requiredDocument, requiredValue, htruthy, getProp]
  | str x => simp [requiredDocument, requiredValue, htruthy, getProp]
  | arr xs => simp [requiredDocument, requiredValue, htruthy, getProp]
  | obj fields =>
    simp only [Json.field] at hcontent
    simp only [requiredDocument, requiredValue, htruthy, if_true, getProp]
    cases hl : fields.lookup "content" with
    | none => rfl
    | some content =>
      cases content with
      | arr xs => exact absurd hl (hcontent xs)
      | null => rfl
      | bool b => rfl
      | num n => rfl
      | str x => rfl
      | obj fs => rfl

theorem requiredDocument_ok (d : Json) (missing wrong : String) (xs : List Json)
    (hcontent : d.field "content" = some (Json.arr xs)) :
    requiredDocument (some d) missing wrong = .ok d := by
  cases d with
  | obj fields =>
    simp only [Json.field] at hcontent
    simp [requiredDocument, requiredValue, Json.truthy, getProp, hcontent]
  | null => simp [Json.field] at hcontent
  | bool b => simp [Json.field] at hcontent
  | num n => simp [Json.field] at hcontent
  | str x => simp [Json.field] at hcontent
  | arr ys => simp [Json.field] at hcontent

/-- C26, as stated, fails: `sendMessage` is called at time 1000 on a fresh client with
arguments that pass all four checks; the token request it causes fails at time 2000, the
`await` throws, and no request to the message endpoint is issued. -/
theorem sendMessage_without_token_issues_nothing :
    (∃ build, sendMessage exampleConfig (some "T1") (some "C1") (some exampleDocument)
        = .ok build) ∧
      ((sendMessage exampleConfig (some "T1") (some "C1") (some exampleDocument)).start
        exampleConfig 1000 State.init).1 = exampleInFlight ∧
      completeFetch 0 (.error "Request failed") 2000 exampleInFlight = some exampleFailed ∧
      (sendMessage exampleConfig (some "T1") (some "C1") (some exampleDocument)).issued
        exampleConfig 1000 State.init exampleFailed = [] :=
  ⟨⟨_, rfl⟩, rfl, rfl, rfl⟩

/-- C26, amended: the first check of `sendMessage` that fails (`cloudId`, `conversationId`,
`document` falsy, `document.content` not an array) decides the error; a call that throws in
its checks leaves the token cache as it was and issues no request at all.  When all four
checks pass, `sendMessage` awaits `getAccessToken`; once that is fulfilled with `v` it
issues exactly one request, the POST of `{body: document}` to
`<base>/site/<cloudId>/conversation/<conversationId>/message` with `authorization: Bearer v`,
and if it is rejected it issues none. -/
theorem sendMessage_validates_first (cfg : Config) (cloudId conversationId : Option String)
    (document : Option Json) (now : Int) (st : State) :
    ((cloudId = none ∨ cloudId = some "") →
        sendMessage cfg cloudId conversationId document
          = .error "Stride/sendMessage: missing param cloudId!") ∧
      (∀ c, cloudId = some c → c ≠ "" → (conversationId = none ∨ conversationId = some "") →
        sendMessage cfg cloudId conversationId document
          = .error "Stride/sendMessage: missing param conversationId!") ∧
      (∀ c v, cloudId = some c → c ≠ "" → conversationId = some v → v ≠ "" →
        (document = none ∨ ∃ d, document = some d ∧ d.truthy = false) →
        sendMessage cfg cloudId conversationId document
          = .error "Stride/sendMessage: missing param documentMessage!") ∧
      (∀ c v d, cloudId = some c → c ≠ "" → conversationId = some v → v ≠ "" →
        document = some d → d.truthy = true →
        (∀ xs, d.field "content" ≠ some (Json.arr xs)) →
        sendMessage cfg cloudId conversationId document
          = .error "Stride/sendMessage: wrong message format!") ∧
      (∀ msg, sendMessage cfg cloudId conversationId document = .error msg →
        (sendMessage cfg cloudId conversationId document).start cfg now st = (st, .error msg) ∧
        ∀ st', (sendMessage cfg cloudId conversationId document).issued cfg now st st' = []) ∧
      (∀ c v d xs, cloudId = some c → c ≠ "" → conversationId = some v → v ≠ "" →
        document = some d → d.field "content" = some (Json.arr xs) →
        ((sendMessage cfg cloudId conversationId document).start cfg now st).1
            = (getAccessToken cfg now st).1 ∧
          (∀ (st' : State) (accessToken : String),
            settled st' (getAccessToken cfg now st).2 = PromiseState.fulfilled accessToken →
            (sendMessage cfg cloudId conversationId document).issued cfg now st st' =
              [{ uri := API_BASE_URL cfg ++ "/site/" ++ c ++ "/conversation/" ++ v
                   ++ "/message"
                 method := "POST"
                 headers := [("authorization", "Bearer " ++ accessToken),
                             ("cache-control", "no-cache")]
                 json := some (Json.obj [("body", d)]) }]) ∧
          (∀ (st' : State) (err : String),
            settled st' (getAccessToken cfg now st).2 = PromiseState.rejected err →
            (sendMessage cfg cloudId conversationId document).issued cfg now st st' = [])) := by
  refine ⟨?_, ?_, ?_, ?_, ?_, ?_⟩
  · rintro (h | h) <;> simp [sendMessage, required, h, bind, Except.bind]
  · rintro c hc hcne (h | h) <;> simp [sendMessage, required, hc, hcne, h, bind, Except.bind]
  · intro c v hc hcne hv hvne hd
    simp [sendMessage, required, hc, hcne, hv, hvne, requiredDocument_missing _ _ _ hd, bind,
      Except.bind]
  · intro c v d hc hcne hv hvne hd htruthy hcontent
    simp [sendMessage, required, hc, hcne, hv, hvne, hd,
      requiredDocument_wrong d _ _ htruthy hcontent, bind, Except.bind]
  · intro msg hmsg
    simp [ApiCall.issued, ApiCall.start, hmsg]
  · intro c v d xs hc hcne hv hvne hd hcontent
    have hok : sendMessage cfg cloudId conversationId document =
        .ok fun accessToken =>
          { uri := API_BASE_URL cfg ++ "/site/" ++ c ++ "/conversation/" ++ v ++ "/message"
            method := "POST"
            headers := [("authorization", "Bearer " ++ accessToken),
                        ("cache-control", "no-cache")]
            json := some (Json.obj [("body", d)]) } := by
      simp [sendMessage, required, hc, hcne, hv, hvne, hd,
        requiredDocument_ok d _ _ xs hcontent, bind, Except.bind, pure, Except.pure]
    refine ⟨?_, ?_, ?_⟩
    · simp [ApiCall.start, hok]
    · intro st' accessToken hs
      simp [ApiCall.issued, ApiCall.start, hok, Suspended.issued, hs]
    · intro st' err hs
      simp [ApiCall.issued, ApiCall.start, hok, Suspended.issued, hs]

theorem sendMessage_validates_first_witness :
    sendMessage exampleConfig (some "T1") (some "") (some exampleDocument)
        = .error "Stride/sendMessage: missing param conversationId!" ∧
      (sendMessage exampleConfig (some "T1") (some "") (some exampleDocument)).start
        exampleConfig 3000 exampleCached
        = (exampleCached, .error "Stride/sendMessage: missing param conversationId!") ∧
      (sendMessage exampleConfig (some "T1") (some "C1") (some exampleDocument)).issued
        exampleConfig 3000 exampleCached exampleCached =
        [{ uri := API_BASE_URL exampleConfig ++ "/site/" ++ "T1" ++ "/conversation/" ++ "C1"
             ++ "/message"
           method := "POST"
           headers := [("authorization", "Bearer " ++ "token-A"), ("cache-control", "no-cache")]
           json := some (Json.obj [("body", exampleDocument)]) }] :=
  ⟨(sendMessage_validates_first exampleConfig (some "T1") (some "") (some exampleDocument) 3000
      exampleCached).2.1 "T1" rfl (by decide) (Or.inr rfl),
    ((sendMessage_validates_first exampleConfig (some "T1") (some "") (some exampleDocument) 3000
      exampleCached).2.2.2.2.1 _ rfl).1,
    ((sendMessage_validates_first exampleConfig (some "T1") (some "C1") (some exampleDocument)
      3000 exampleCached).2.2.2.2.2 "T1" "C1" exampleDocument _ rfl (by decide) rfl (by decide)
      rfl rfl).2.1 exampleCached "token-A" rfl⟩

/-! ## The token cache after a failed fetch -/

/-- C1, evaluated: on a fresh client the fetch started at time 1000 fails at time 2000.  In
the state reached no token is cached and no token request is outstanding, yet the two calls
at times 3000 and 3001 issue no request at all (the list of fetches is unchanged) and both
get the rejected promise of the failed fetch. -/
theorem two_calls_after_failure_issue_nothing :
    Reachable exampleConfig exampleFailed ∧
      outstanding exampleFailed = 0 ∧
      exampleFailed.token = none ∧
      (getAccessToken exampleConfig 3001
        (getAccessToken exampleConfig 3000 exampleFailed).1).1.fetches = exampleFailed.fetches ∧
      exampleFailed.fetches.length = 1 ∧
      settled exampleFailed (getAccessToken exampleConfig 3000 exampleFailed).2
        = PromiseState.rejected "Request failed" ∧
      settled exampleFailed
          (getAccessToken exampleConfig 3001
            (getAccessToken exampleConfig 3000 exampleFailed).1).2
        = PromiseState.rejected "Request failed" :=
  ⟨Reachable.step (Event.complete 0 (.error "Request failed") 2000)
      (Reachable.step (Event.call 1000) Reachable.init rfl) rfl,
    rfl, rfl, rfl, rfl, rfl, rfl⟩

/-- C4, evaluated: `token-A` is cached at time 2000 with `refresh_time` 3542000; the refresh
started by the call at time 3542001 fails at time 3543000.  In the state reached the cached
token has expired and no token request is outstanding, yet the call at time 3544000 issues
no request and gets the rejected promise of the failed refresh. -/
theorem expired_token_not_refreshed_after_failure :
    Reachable exampleConfig exampleExpiredFailed ∧
      outstanding exampleExpiredFailed = 0 ∧
      exampleExpiredFailed.token = some (withRefreshTime exampleResponse 2000) ∧
      (withRefreshTime exampleResponse 2000).refresh_time = 3542000 ∧
      getAccessToken exampleConfig 3544000 exampleExpiredFailed
        = (exampleExpiredFailed, CallResult.promise 1) ∧
      settled exampleExpiredFailed (CallResult.promise 1)
        = PromiseState.rejected "Request failed" :=
  ⟨Reachable.step (Event.complete 1 (.error "Request failed") 3543000)
      (Reachable.step (Event.call 3542001)
        (Reachable.step (Event.complete 0 (.ok exampleResponse) 2000)
          (Reachable.step (Event.call 1000) Reachable.init rfl) rfl) rfl) rfl,
    rfl, rfl, rfl, rfl, rfl⟩

/-- C21, evaluated: a token with `expires_in = 30` is cached at time 2000, so its
`refresh_time` is -28000 and it is never served; the fetch started by the call at time 3000
fails at time 4000.  In the state reached no token request is outstanding, yet the call at
time 5000 issues no request and gets the rejected promise of the failed fetch. -/
theorem short_lived_token_not_refetched_after_failure :
    Reachable exampleConfig exampleShortFailed ∧
      outstanding exampleShortFailed = 0 ∧
      exampleShortFailed.token = some (withRefreshTime exampleShortResponse 2000) ∧
      (withRefreshTime exampleShortResponse 2000).refresh_time = -28000 ∧
      cacheUsable exampleShortFailed 5000 = false ∧
      getAccessToken exampleConfig 5000 exampleShortFailed
        = (exampleShortFailed, CallResult.promise 1) ∧
      settled exampleShortFailed (CallResult.promise 1)
        = PromiseState.rejected "Request failed" :=
  ⟨Reachable.step (Event.complete 1 (.error "Request failed") 4000)
      (Reachable.step (Event.call 3000)
        (Reachable.step (Event.complete 0 (.ok exampleShortResponse) 2000)
          (Reachable.step (Event.call 1000) Reachable.init rfl) rfl) rfl) rfl,
    rfl, rfl, rfl, rfl, rfl, rfl⟩

end Stride
